import Mathlib

/-!
Shallow embedding of the Mus language core (`src/mus/core/`): the token
model and AST of `parser.py`, the value model and environment of
`types.py`, the recursive-descent parser, and the tree-walking
interpreter of `interpreter.py`.  Python dictionaries are modelled as
insertion-ordered association lists, Python object identity (mutable
`Environment`, `MusObject` and `MusArray.elements` references) by an
arena: the state holds lists of environment, object and array cells and
values carry indices into them.  Machine-level details that the claims
do not touch (Python hash ordering, `id()` addresses) are noted at the
definitions that model them.
-/

namespace Mus

/-- Single-quote character, used to build Python error and repr strings. -/
def sq : String := String.singleton (Char.ofNat 39)

/-- Token types of `core/lexer.py` (`class TokenType(Enum)`), in source order. -/
inductive TokenType where
  | CLASS | FUN | VAR | IF | ELSE | ELIF | WHILE | FOR | IN | RETURN
  | THIS | SUPER | EXTENDS | NEW
  | INTEGER | STRING | BOOLEAN
  | PLUS | MINUS | MULTIPLY | DIVIDE | MODULO | ASSIGN | EQUALS | NOT_EQUALS
  | GREATER | GREATER_EQUAL | LESS | LESS_EQUAL | AND | OR | NOT
  | LEFT_PAREN | RIGHT_PAREN | LEFT_BRACE | RIGHT_BRACE
  | LEFT_BRACKET | RIGHT_BRACKET | COMMA | DOT | ARROW | SEMICOLON
  | IDENTIFIER | COMMENT | EOF
  deriving DecidableEq, Repr

/-- The `auto()` value of each enum member (1-based, declaration order),
as it appears in Python `repr` output of tokens. -/
def tokenTypeNum : TokenType → Nat
  | .CLASS => 1 | .FUN => 2 | .VAR => 3 | .IF => 4 | .ELSE => 5 | .ELIF => 6
  | .WHILE => 7 | .FOR => 8 | .IN => 9 | .RETURN => 10 | .THIS => 11
  | .SUPER => 12 | .EXTENDS => 13 | .NEW => 14 | .INTEGER => 15 | .STRING => 16
  | .BOOLEAN => 17 | .PLUS => 18 | .MINUS => 19 | .MULTIPLY => 20 | .DIVIDE => 21
  | .MODULO => 22 | .ASSIGN => 23 | .EQUALS => 24 | .NOT_EQUALS => 25
  | .GREATER => 26 | .GREATER_EQUAL => 27 | .LESS => 28 | .LESS_EQUAL => 29
  | .AND => 30 | .OR => 31 | .NOT => 32 | .LEFT_PAREN => 33 | .RIGHT_PAREN => 34
  | .LEFT_BRACE => 35 | .RIGHT_BRACE => 36 | .LEFT_BRACKET => 37
  | .RIGHT_BRACKET => 38 | .COMMA => 39 | .DOT => 40 | .ARROW => 41
  | .SEMICOLON => 42 | .IDENTIFIER => 43 | .COMMENT => 44 | .EOF => 45

/-- The Python name of each enum member. -/
def tokenTypeName : TokenType → String
  | .CLASS => "CLASS" | .FUN => "FUN" | .VAR => "VAR" | .IF => "IF"
  | .ELSE => "ELSE" | .ELIF => "ELIF" | .WHILE => "WHILE" | .FOR => "FOR"
  | .IN => "IN" | .RETURN => "RETURN" | .THIS => "THIS" | .SUPER => "SUPER"
  | .EXTENDS => "EXTENDS" | .NEW => "NEW" | .INTEGER => "INTEGER"
  | .STRING => "STRING" | .BOOLEAN => "BOOLEAN" | .PLUS => "PLUS"
  | .MINUS => "MINUS" | .MULTIPLY => "MULTIPLY" | .DIVIDE => "DIVIDE"
  | .MODULO => "MODULO" | .ASSIGN => "ASSIGN" | .EQUALS => "EQUALS"
  | .NOT_EQUALS => "NOT_EQUALS" | .GREATER => "GREATER"
  | .GREATER_EQUAL => "GREATER_EQUAL" | .LESS => "LESS"
  | .LESS_EQUAL => "LESS_EQUAL" | .AND => "AND" | .OR => "OR" | .NOT => "NOT"
  | .LEFT_PAREN => "LEFT_PAREN" | .RIGHT_PAREN => "RIGHT_PAREN"
  | .LEFT_BRACE => "LEFT_BRACE" | .RIGHT_BRACE => "RIGHT_BRACE"
  | .LEFT_BRACKET => "LEFT_BRACKET" | .RIGHT_BRACKET => "RIGHT_BRACKET"
  | .COMMA => "COMMA" | .DOT => "DOT" | .ARROW => "ARROW"
  | .SEMICOLON => "SEMICOLON" | .IDENTIFIER => "IDENTIFIER"
  | .COMMENT => "COMMENT" | .EOF => "EOF"

/-- Literal payload a token may carry (`Token.literal : Optional[object]`:
the lexer stores an `int`, `str` or `bool`). -/
inductive TokLit where
  | tint (n : Int)
  | tstr (s : String)
  | tbool (b : Bool)
  deriving DecidableEq, Repr

/-- `Token` of `core/lexer.py`: frozen dataclass with type, lexeme,
optional literal payload, line and column. -/
structure Token where
  type : TokenType
  lexeme : String
  literal : Option TokLit
  line : Nat
  column : Nat
  deriving DecidableEq, Repr

mutual
/-- Expression AST of `core/parser.py` (frozen dataclasses
`Literal`, `Variable`, `This`, `Super`, `Binary`, `Unary`, `Call`,
`Get`, `Set`).  The `Get`/`Set` `name` field is a plain string, exactly
as in the source. -/
inductive Expr where
  | lit (value : LitVal) (token : Token)
  | varE (name : String) (token : Token)
  | thisE (token : Token)
  | superE (method : String) (token : Token)
  | binary (left : Expr) (operator : Token) (right : Expr)
  | unary (operator : Token) (right : Expr)
  | call (callee : Expr) (arguments : List Expr) (token : Token)
  | get (object : Expr) (name : String) (token : Token)
  | setE (object : Expr) (name : String) (value : Expr) (token : Token)

/-- The `value` field of `Literal`: the parser stores an `int`, `str` or
`bool` token payload, `None` (panic-mode recovery), or a raw Python list
of element expressions (array literals, `Parser.primary`). -/
inductive LitVal where
  | lint (n : Int)
  | lstr (s : String)
  | lbool (b : Bool)
  | lnone
  | llist (elements : List Expr)
end

/-- Statement AST of `core/parser.py`.  `classDecl` carries its field
`VarDeclaration`s as (name, type, initializer expression, token) tuples
and its method `FunctionDeclaration`s as (name, params, body, token)
tuples, mirroring the dataclass fields. -/
inductive Stmt where
  | exprStmt (expression : Expr)
  | varDecl (name : String) (typeName : String) (initExpr : Option Expr) (token : Token)
  | funDecl (name : String) (params : List (String × String)) (body : List Stmt) (token : Token)
  | classDecl (name : String) (superclass : Option String)
      (fields : List (String × String × Option Expr × Token))
      (methods : List (String × List (String × String) × List Stmt × Token))
      (token : Token)
  | block (statements : List Stmt)
  | ifS (condition : Expr) (thenBranch : Stmt) (elseBranch : Option Stmt)
  | whileS (condition : Expr) (body : Stmt)
  | forS (iterator : String) (iterable : Expr) (body : Stmt)
  | returnS (value : Option Expr) (token : Token)

mutual
/-- Structural equality of expressions: Python `==` on the frozen
expression dataclasses compares all fields recursively. -/
def exprBeq : Expr → Expr → Bool
  | .lit v₁ t₁, .lit v₂ t₂ => litValBeq v₁ v₂ && t₁ == t₂
  | .varE n₁ t₁, .varE n₂ t₂ => n₁ == n₂ && t₁ == t₂
  | .thisE t₁, .thisE t₂ => t₁ == t₂
  | .superE m₁ t₁, .superE m₂ t₂ => m₁ == m₂ && t₁ == t₂
  | .binary l₁ o₁ r₁, .binary l₂ o₂ r₂ => exprBeq l₁ l₂ && o₁ == o₂ && exprBeq r₁ r₂
  | .unary o₁ r₁, .unary o₂ r₂ => o₁ == o₂ && exprBeq r₁ r₂
  | .call c₁ a₁ t₁, .call c₂ a₂ t₂ => exprBeq c₁ c₂ && exprListBeq a₁ a₂ && t₁ == t₂
  | .get o₁ n₁ t₁, .get o₂ n₂ t₂ => exprBeq o₁ o₂ && n₁ == n₂ && t₁ == t₂
  | .setE o₁ n₁ v₁ t₁, .setE o₂ n₂ v₂ t₂ =>
      exprBeq o₁ o₂ && n₁ == n₂ && exprBeq v₁ v₂ && t₁ == t₂
  | _, _ => false

/-- Structural equality of literal payloads (Python `==` on the stored value). -/
def litValBeq : LitVal → LitVal → Bool
  | .lint a, .lint b => a == b
  | .lstr a, .lstr b => a == b
  | .lbool a, .lbool b => a == b
  | .lnone, .lnone => true
  | .llist a, .llist b => exprListBeq a b
  | _, _ => false

/-- Element-wise equality of Python lists of expressions. -/
def exprListBeq : List Expr → List Expr → Bool
  | [], [] => true
  | a :: as_, b :: bs => exprBeq a b && exprListBeq as_ bs
  | _, _ => false
end

mutual
/-- Structural equality of statements (Python `==` on the statement
dataclasses compares all fields recursively). -/
def stmtBeq : Stmt → Stmt → Bool
  | .exprStmt e₁, .exprStmt e₂ => exprBeq e₁ e₂
  | .varDecl n₁ ty₁ i₁ t₁, .varDecl n₂ ty₂ i₂ t₂ =>
      n₁ == n₂ && ty₁ == ty₂ && optExprBeq i₁ i₂ && t₁ == t₂
  | .funDecl n₁ p₁ b₁ t₁, .funDecl n₂ p₂ b₂ t₂ =>
      n₁ == n₂ && p₁ == p₂ && stmtListBeq b₁ b₂ && t₁ == t₂
  | .classDecl n₁ s₁ f₁ m₁ t₁, .classDecl n₂ s₂ f₂ m₂ t₂ =>
      n₁ == n₂ && s₁ == s₂ && fieldListBeq f₁ f₂ && methodListBeq m₁ m₂ && t₁ == t₂
  | .block b₁, .block b₂ => stmtListBeq b₁ b₂
  | .ifS c₁ th₁ e₁, .ifS c₂ th₂ e₂ => exprBeq c₁ c₂ && stmtBeq th₁ th₂ && optStmtBeq e₁ e₂
  | .whileS c₁ b₁, .whileS c₂ b₂ => exprBeq c₁ c₂ && stmtBeq b₁ b₂
  | .forS i₁ it₁ b₁, .forS i₂ it₂ b₂ => i₁ == i₂ && exprBeq it₁ it₂ && stmtBeq b₁ b₂
  | .returnS v₁ t₁, .returnS v₂ t₂ => optExprBeq v₁ v₂ && t₁ == t₂
  | _, _ => false

/-- Equality of optional initializer or else-branch expressions. -/
def optExprBeq : Option Expr → Option Expr → Bool
  | none, none => true
  | some a, some b => exprBeq a b
  | _, _ => false

/-- Equality of optional else-branch statements. -/
def optStmtBeq : Option Stmt → Option Stmt → Bool
  | none, none => true
  | some a, some b => stmtBeq a b
  | _, _ => false

/-- Element-wise equality of statement lists. -/
def stmtListBeq : List Stmt → List Stmt → Bool
  | [], [] => true
  | a :: as_, b :: bs => stmtBeq a b && stmtListBeq as_ bs
  | _, _ => false

/-- Equality of class field-declaration tuples. -/
def fieldListBeq :
    List (String × String × Option Expr × Token) →
    List (String × String × Option Expr × Token) → Bool
  | [], [] => true
  | (n₁, ty₁, i₁, t₁) :: as_, (n₂, ty₂, i₂, t₂) :: bs =>
      n₁ == n₂ && ty₁ == ty₂ && optExprBeq i₁ i₂ && t₁ == t₂ && fieldListBeq as_ bs
  | _, _ => false

/-- Equality of class method-declaration tuples. -/
def methodListBeq :
    List (String × List (String × String) × List Stmt × Token) →
    List (String × List (String × String) × List Stmt × Token) → Bool
  | [], [] => true
  | (n₁, p₁, b₁, t₁) :: as_, (n₂, p₂, b₂, t₂) :: bs =>
      n₁ == n₂ && p₁ == p₂ && stmtListBeq b₁ b₂ && t₁ == t₂ && methodListBeq as_ bs
  | _, _ => false
end

/-! ## Python string conversions

`Parser.call` stores `str(index)` of an expression node in a `Get`, the
evaluator calls `int(name)` on it, and `Lexer.number` calls `int(...)`
on the scanned characters, so the embedding needs Python `repr`/`str`
of the frozen AST dataclasses and Python `int()` string parsing. -/

/-- Python `repr` of a `bool` (`True` / `False`). -/
def pyBoolRepr (b : Bool) : String := if b then "True" else "False"

/-- Escape one character the way Python `repr` of a `str` does for the
common escapes (backslash, the chosen quote, newline, tab, carriage
return); other printable characters pass through unchanged. -/
def pyCharEscape (quote : Char) (c : Char) : String :=
  if c == '\\' then "\\\\"
  else if c == quote then "\\" ++ String.singleton quote
  else if c == '\n' then "\\n"
  else if c == '\t' then "\\t"
  else if c == '\x0d' then "\\r"
  else String.singleton c

/-- Python `repr` of a `str`: single quotes, switching to double quotes
when the text contains a single quote but no double quote. -/
def pyStrRepr (s : String) : String :=
  let quote : Char :=
    if s.data.contains (Char.ofNat 39) && !s.data.contains '"' then '"'
    else Char.ofNat 39
  String.singleton quote ++ String.join (s.data.map (pyCharEscape quote)) ++
    String.singleton quote

/-- Python `str` of a `TokenType` member (`TokenType.NAME`). -/
def tokenTypeStr (t : TokenType) : String := "TokenType." ++ tokenTypeName t

/-- Python `repr` of a `TokenType` member inside a dataclass `repr`
(`<TokenType.NAME: n>`). -/
def tokenTypeRepr (t : TokenType) : String :=
  "<TokenType." ++ tokenTypeName t ++ ": " ++ toString (tokenTypeNum t) ++ ">"

/-- Python `repr` of a token's optional literal payload. -/
def tokLitRepr : Option TokLit → String
  | none => "None"
  | some (.tint n) => toString n
  | some (.tstr s) => pyStrRepr s
  | some (.tbool b) => pyBoolRepr b

/-- Python `repr` of a `Token` (dataclass-generated: keyword=value pairs
in field order). -/
def tokenRepr (t : Token) : String :=
  "Token(type=" ++ tokenTypeRepr t.type ++ ", lexeme=" ++ pyStrRepr t.lexeme ++
  ", literal=" ++ tokLitRepr t.literal ++ ", line=" ++ toString t.line ++
  ", column=" ++ toString t.column ++ ")"

mutual
/-- Python `str`/`repr` of an expression node: the dataclass-generated
`repr` (the expression classes define no `__str__`), as produced by
`str(index)` in `Parser.call`. -/
def exprRepr : Expr → String
  | .lit v t => "Literal(value=" ++ litValRepr v ++ ", token=" ++ tokenRepr t ++ ")"
  | .varE n t => "Variable(name=" ++ pyStrRepr n ++ ", token=" ++ tokenRepr t ++ ")"
  | .thisE t => "This(token=" ++ tokenRepr t ++ ")"
  | .superE m t => "Super(method=" ++ pyStrRepr m ++ ", token=" ++ tokenRepr t ++ ")"
  | .binary l o r =>
      "Binary(left=" ++ exprRepr l ++ ", operator=" ++ tokenRepr o ++
      ", right=" ++ exprRepr r ++ ")"
  | .unary o r => "Unary(operator=" ++ tokenRepr o ++ ", right=" ++ exprRepr r ++ ")"
  | .call c a t =>
      "Call(callee=" ++ exprRepr c ++ ", arguments=[" ++ exprListReprAux a ++
      "], token=" ++ tokenRepr t ++ ")"
  | .get o n t =>
      "Get(object=" ++ exprRepr o ++ ", name=" ++ pyStrRepr n ++
      ", token=" ++ tokenRepr t ++ ")"
  | .setE o n v t =>
      "Set(object=" ++ exprRepr o ++ ", name=" ++ pyStrRepr n ++
      ", value=" ++ exprRepr v ++ ", token=" ++ tokenRepr t ++ ")"
  termination_by structural e => e

/-- Python `repr` of a `Literal.value` payload. -/
def litValRepr : LitVal → String
  | .lint n => toString n
  | .lstr s => pyStrRepr s
  | .lbool b => pyBoolRepr b
  | .lnone => "None"
  | .llist es => "[" ++ exprListReprAux es ++ "]"
  termination_by structural v => v

/-- Comma-separated `repr`s of list elements. -/
def exprListReprAux : List Expr → String
  | [] => ""
  | [e] => exprRepr e
  | e :: rest => exprRepr e ++ ", " ++ exprListReprAux rest
  termination_by structural es => es
end

/-- Python `repr` of a list of expressions (`[e1, e2, ...]`). -/
def exprListRepr (es : List Expr) : String := "[" ++ exprListReprAux es ++ "]"

/-- Whether `pre` is a prefix of `cs`, character by character. -/
def startsWithChars : List Char → List Char → Bool
  | [], _ => true
  | _ :: _, [] => false
  | p :: ps, c :: cs => p == c && startsWithChars ps cs

/-- Python `str.startswith`. -/
def pyStartswith (s pre : String) : Bool := startsWithChars pre.data s.data

/-- Python `str.endswith`. -/
def pyEndswith (s suf : String) : Bool :=
  startsWithChars suf.data.reverse s.data.reverse

/-- Python slice `s[6:-1]`, used for `type_name[6:-1]` in the
`VarDeclaration` case. -/
def pySlice6DropLast (s : String) : String := String.mk ((s.data.drop 6).dropLast)

/-- Numeric value of a digit run. -/
def digitsVal (cs : List Char) : Nat :=
  cs.foldl (fun acc c => acc * 10 + (c.toNat - 48)) 0

/-- Model of Python `int(s)` on a string: strip surrounding whitespace,
accept an optional sign followed by a nonempty digit run, otherwise
raise `ValueError` (`none`).  (Underscore digit separators, which
Python also accepts, are omitted: no string reaching `int()` in the
embedded code contains one.) -/
def pyIntParse (s : String) : Option Int :=
  let cs := ((s.data.dropWhile Char.isWhitespace).reverse.dropWhile
    Char.isWhitespace).reverse
  match cs with
  | [] => none
  | c :: rest =>
    let signed : Bool × List Char :=
      if c == '-' then (true, rest)
      else if c == '+' then (false, rest) else (false, cs)
    if signed.2 ≠ [] ∧ signed.2.all Char.isDigit then
      some ((if signed.1 then -1 else 1) * (digitsVal signed.2 : Int))
    else none

/-! ## Value model (`core/types.py` and the raw Python values the
interpreter passes around)

The interpreter stores raw Python values: `int`, `str`, `bool`, `None`,
`float` (results of `/`), raw `list`s of expression nodes (array
literals evaluate to their unevaluated element list), `MusArray`,
`MusFunction`, `MusClass`, `MusObject`.  Mutable `Environment`,
`MusObject` and `MusArray` cells live in arenas inside `Interp` and are
referenced by index; `float` is modelled as an exact rational (Python
float arithmetic agrees on the dyadic values the claims touch). -/

/-- Identifier of a built-in host function (`define_builtins`). -/
inductive NativeId where
  | outFn
  | lengthFn
  deriving DecidableEq, Repr

/-- `MusFunction` of `core/types.py`: dataclass with `name`, `params`,
`body`, `closure` (an environment reference, here an arena index) and
`native_fn` (defaulting to `None`).  Because `native_fn` is a declared
dataclass field, every instance has the attribute. -/
structure MusFunctionV where
  name : String
  params : List (String × String)
  body : List Stmt
  closure : Option Nat
  nativeFn : Option NativeId

mutual
/-- A raw Python value flowing through `Interpreter.evaluate`. -/
inductive Value where
  | vnone
  | vint (n : Int)
  | vfloat (q : ℚ)
  | vstr (s : String)
  | vbool (b : Bool)
  | vlist (elements : List Expr)
  | varr (id : Nat)
  | vfun (f : MusFunctionV)
  | vclass (c : ClassV)
  | vobj (id : Nat)
  | vexprNode (e : Expr)

/-- `MusClass` of `core/types.py`: `name`, `fields` (name ↦ (type,
default value), insertion-ordered), `methods`, `parent`, declaring
`environment` (arena index). -/
inductive ClassV where
  | mk (name : String) (fields : List (String × String × Value))
      (methods : List (String × MusFunctionV)) (parent : Option ClassV)
      (environment : Option Nat)
end

/-- Accessor for the class name. -/
def ClassV.name : ClassV → String
  | .mk n _ _ _ _ => n

/-- Accessor for the class field templates. -/
def ClassV.fields : ClassV → List (String × String × Value)
  | .mk _ f _ _ _ => f

/-- Accessor for the class method table. -/
def ClassV.methods : ClassV → List (String × MusFunctionV)
  | .mk _ _ m _ _ => m

/-- Accessor for the superclass. -/
def ClassV.parent : ClassV → Option ClassV
  | .mk _ _ _ p _ => p

/-- Accessor for the declaring environment index. -/
def ClassV.environment : ClassV → Option Nat
  | .mk _ _ _ _ e => e

/-- First-match lookup in an insertion-ordered association list
(Python `dict` read: keys are unique). -/
def dictGet {α : Type} : List (String × α) → String → Option α
  | [], _ => none
  | (k, v) :: rest, key => if k == key then some v else dictGet rest key

/-- Python `key in dict`. -/
def dictHas {α : Type} (d : List (String × α)) (key : String) : Bool :=
  (dictGet d key).isSome

/-- Python `dict[key] = value`: replace in place when the key exists,
else append (insertion order preserved). -/
def dictSet {α : Type} : List (String × α) → String → α → List (String × α)
  | [], key, v => [(key, v)]
  | (k, w) :: rest, key, v =>
      if k == key then (k, v) :: rest else (k, w) :: dictSet rest key v

/-- Arena cell read (`list[i]` with a default for the out-of-range
case, which no reachable state hits). -/
def listNthD {α : Type} (d : α) : List α → Nat → α
  | [], _ => d
  | x :: _, 0 => x
  | _ :: xs, n + 1 => listNthD d xs n

/-- Arena cell read returning `none` out of range. -/
def listNthQ {α : Type} : List α → Nat → Option α
  | [], _ => none
  | x :: _, 0 => some x
  | _ :: xs, n + 1 => listNthQ xs n

/-- Arena cell write (`list[i] = v`; out of range leaves the list
unchanged, which no reachable state hits). -/
def listSetNth {α : Type} : List α → Nat → α → List α
  | [], _, _ => []
  | _ :: xs, 0, b => b :: xs
  | x :: xs, n + 1, b => x :: listSetNth xs n b

/-- `Environment` of `core/types.py`: parent link plus the three
namespaces (`vars` embeds the source's `variables` dict, whose name is
reserved in Lean).  A variable entry stores `(type_name, value)`; the type
slot is optional because `MusObject.set_field` can store `None` there. -/
structure EnvData where
  parent : Option Nat
  vars : List (String × Option String × Value)
  functions : List (String × MusFunctionV)
  classes : List (String × ClassV)

/-- `MusObject` of `core/types.py`: class, mutable field dict, optional
instance environment. -/
structure ObjData where
  classDef : ClassV
  fields : List (String × Value)
  environment : Option Nat

/-- `MusArray` of `core/types.py`: mutable element list plus the
declared element type. -/
structure ArrData where
  elements : List Value
  element_type : String

/-- Interpreter state: the arenas backing Python reference semantics,
the `print`ed output, and `Interpreter.locals` (which `resolve` would
populate — nothing in the repository ever calls `resolve`, so it
stays empty in every reachable state, but it is carried faithfully). -/
structure Interp where
  envs : List EnvData
  objects : List ObjData
  arrays : List ArrData
  output : List String
  locals : List (Expr × Nat)

/-- Default (dangling-reference) environment; never read in reachable
states, needed only to make arena reads total. -/
def emptyEnv : EnvData := ⟨none, [], [], []⟩

/-- Read an environment cell. -/
def getEnv (s : Interp) (i : Nat) : EnvData := listNthD emptyEnv s.envs i

/-- Write an environment cell. -/
def setEnv (s : Interp) (i : Nat) (e : EnvData) : Interp :=
  { s with envs := listSetNth s.envs i e }

/-- Allocate a new environment with the given parent
(`Environment(parent)` / `child()`), returning its index. -/
def newEnv (s : Interp) (parent : Option Nat) : Interp × Nat :=
  ({ s with envs := s.envs ++ [⟨parent, [], [], []⟩] }, s.envs.length)

/-- `Environment.define_variable`: insert in the current environment,
overwriting any existing binding. -/
def define_variable (s : Interp) (envId : Nat) (name : String)
    (typeName : Option String) (v : Value) : Interp :=
  let e := getEnv s envId
  setEnv s envId { e with vars := dictSet e.vars name (typeName, v) }

/-- `Environment.get_variable`: nearest-enclosing lookup along the
parent chain; `None` when absent.  Fuel bounds the chain walk (parent
chains created by the code are finite and acyclic). -/
def get_variable : Nat → Interp → Nat → String → Value
  | 0, _, _, _ => .vnone
  | fuel + 1, s, envId, name =>
    let e := getEnv s envId
    match dictGet e.vars name with
    | some (_, v) => v
    | none =>
      match e.parent with
      | some p => get_variable fuel s p name
      | none => .vnone

/-- Runtime error taxonomy: `InterpreterError` plus the raw Python
exceptions the core raises (`ValueError` from `int`, `TypeError` from
calling `None`, `IndexError`/`NameError`/`RuntimeError` from
`types.py` and the builtins), and fuel exhaustion of the embedding. -/
inductive Err where
  | interpErr (message : String) (token : Token)
  | pyValueError (message : String)
  | pyTypeError (message : String)
  | pyIndexError (message : String)
  | pyNameError (message : String)
  | pyRuntimeError (message : String)
  | outOfFuel
  deriving Repr

/-- `Environment.set_variable`: update the nearest enclosing binding,
keeping its recorded type; `NameError` when no environment on the
chain binds the name. -/
def set_variable : Nat → Interp → Nat → String → Value → Except Err Interp
  | 0, _, _, _, _ => .error .outOfFuel
  | fuel + 1, s, envId, name, v =>
    let e := getEnv s envId
    match dictGet e.vars name with
    | some (ty, _) =>
      .ok (setEnv s envId { e with vars := dictSet e.vars name (ty, v) })
    | none =>
      match e.parent with
      | some p => set_variable fuel s p name v
      | none =>
        .error (.pyNameError ("Variable " ++ sq ++ name ++ sq ++ " not defined"))

/-- `Environment.get_at`: walk `distance` parents (RuntimeError when
the chain is too short), then `get_variable` there. -/
def get_at (fuel : Nat) (s : Interp) (envId : Nat) :
    Nat → String → Except Err Value
  | 0, name => .ok (get_variable fuel s envId name)
  | distance + 1, name =>
    match (getEnv s envId).parent with
    | none =>
      .error (.pyRuntimeError
        ("Invalid scope distance for variable " ++ sq ++ name ++ sq))
    | some p => get_at fuel s p distance name

/-- `Environment.define_function`: registers
`MusFunction(name, params, body, self)` in the current environment's
function namespace (closure = the defining environment). -/
def define_function (s : Interp) (envId : Nat) (name : String)
    (params : List (String × String)) (body : List Stmt) : Interp :=
  let e := getEnv s envId
  setEnv s envId
    { e with functions :=
        dictSet e.functions name ⟨name, params, body, some envId, none⟩ }

/-- `Environment.get_function`: nearest-enclosing lookup in the
function namespace. -/
def get_function : Nat → Interp → Nat → String → Option MusFunctionV
  | 0, _, _, _ => none
  | fuel + 1, s, envId, name =>
    let e := getEnv s envId
    match dictGet e.functions name with
    | some f => some f
    | none =>
      match e.parent with
      | some p => get_function fuel s p name
      | none => none

/-- `Environment.define_class`: build
`MusClass(name, fields, methods, parent, self)` and register it;
returns the class as the source does. -/
def define_class (s : Interp) (envId : Nat) (name : String)
    (fields : List (String × String × Value))
    (methods : List (String × MusFunctionV)) (parent : Option ClassV) :
    Interp × ClassV :=
  let c : ClassV := .mk name fields methods parent (some envId)
  let e := getEnv s envId
  (setEnv s envId { e with classes := dictSet e.classes name c }, c)

/-- `Environment.get_class`: nearest-enclosing lookup in the class
namespace. -/
def get_class : Nat → Interp → Nat → String → Option ClassV
  | 0, _, _, _ => none
  | fuel + 1, s, envId, name =>
    let e := getEnv s envId
    match dictGet e.classes name with
    | some c => some c
    | none =>
      match e.parent with
      | some p => get_class fuel s p name
      | none => none

/-- `MusClass.get_method`: own table first, then the inheritance chain. -/
def get_method : ClassV → String → Option MusFunctionV
  | .mk _ _ methods parent _, name =>
    match dictGet methods name with
    | some m => some m
    | none =>
      match parent with
      | some p => get_method p name
      | none => none

/-- `MusFunction.bind`: a fresh environment parented to the function's
closure, with `this` bound to the instance (typed by its class name)
and `super` bound to the parent class when one exists; the bound copy
shares name/params/body and has `native_fn = None` (the dataclass
default). -/
def method_bind (s : Interp) (f : MusFunctionV) (instId : Nat) :
    MusFunctionV × Interp :=
  let inst := listNthD ⟨.mk "" [] [] none none, [], none⟩ s.objects instId
  let (s₁, eid) := newEnv s f.closure
  let s₂ := define_variable s₁ eid "this" (some inst.classDef.name) (.vobj instId)
  let s₃ :=
    match inst.classDef.parent with
    | some p => define_variable s₂ eid "super" (some p.name) (.vclass p)
    | none => s₂
  (⟨f.name, f.params, f.body, some eid, none⟩, s₃)

/-- `MusClass.create_instance`: allocate the instance, copy the field
defaults in declaration order, build the instance environment (parented
to the class's declaring environment, binding `this` and, with a
superclass, `super`), and when an `init` method exists (own or
inherited) store a bound copy of it under the `"init"` key of the
instance's field dict.  Returns the new object's arena index.  (The
`interpreter` parameter of the source is unused there and omitted.) -/
def create_instance (s : Interp) (c : ClassV) : Interp × Nat :=
  let oid := s.objects.length
  let s₁ := { s with objects := s.objects ++
    [⟨c, c.fields.map (fun fd => (fd.1, fd.2.2)), none⟩] }
  let (s₂, eid) := newEnv s₁ c.environment
  let s₃ := define_variable s₂ eid "this" (some c.name) (.vobj oid)
  let s₄ :=
    match c.parent with
    | some p => define_variable s₃ eid "super" (some p.name) (.vclass p)
    | none => s₃
  let s₅ :=
    match listNthQ s₄.objects oid with
    | some o =>
      { s₄ with objects := listSetNth s₄.objects oid ({ o with environment := some eid }) }
    | none => s₄
  match get_method c "init" with
  | some initMethod =>
    let (boundInit, s₇) := method_bind s₅ initMethod oid
    let s₈ :=
      match listNthQ s₇.objects oid with
      | some o =>
        let o₂ : ObjData :=
          { o with fields := dictSet o.fields "init" (.vfun boundInit) }
        { s₇ with objects := listSetNth s₇.objects oid o₂ }
      | none => s₇
    (s₈, oid)
  | none => (s₅, oid)

/-- Default object for total arena reads (never read in reachable states). -/
def emptyObj : ObjData := ⟨.mk "" [] [] none none, [], none⟩

/-- `MusObject.get_field`: own field dict first; then a method,
returned as a freshly bound copy; then retry on a freshly allocated
empty instance of the parent class; else `NameError`. -/
def get_field : Nat → Interp → Nat → String → Except Err (Value × Interp)
  | 0, _, _, _ => .error .outOfFuel
  | fuel + 1, s, oid, name =>
    let obj := listNthD emptyObj s.objects oid
    match dictGet obj.fields name with
    | some v => .ok (v, s)
    | none =>
      match get_method obj.classDef name with
      | some m =>
        let (bound, s₁) := method_bind s m oid
        .ok (.vfun bound, s₁)
      | none =>
        match obj.classDef.parent with
        | some p =>
          let poid := s.objects.length
          let s₁ := { s with objects := s.objects ++ [⟨p, [], none⟩] }
          get_field fuel s₁ poid name
        | none =>
          .error (.pyNameError
            ("Field " ++ sq ++ name ++ sq ++ " not found in class " ++
             sq ++ obj.classDef.name ++ sq))

/-- `MusObject.set_field`: writable when the name is a declared class
field or already present on the instance (also mirrored into the
instance environment, typed by the class field's type or `None`);
otherwise retried on a fresh empty parent instance and cached locally;
else `NameError`. -/
def set_field : Nat → Interp → Nat → String → Value → Except Err Interp
  | 0, _, _, _, _ => .error .outOfFuel
  | fuel + 1, s, oid, name, v =>
    let obj := listNthD emptyObj s.objects oid
    if dictHas obj.classDef.fields name || dictHas obj.fields name then
      let obj₁ : ObjData := { obj with fields := dictSet obj.fields name v }
      let s₁ := { s with objects := listSetNth s.objects oid obj₁ }
      match obj.environment with
      | some eid =>
        let fieldTy : Option String :=
          match dictGet obj.classDef.fields name with
          | some (ty, _) => some ty
          | none => none
        .ok (define_variable s₁ eid name fieldTy v)
      | none => .ok s₁
    else
      match obj.classDef.parent with
      | some p =>
        let poid := s.objects.length
        let s₁ := { s with objects := s.objects ++ [⟨p, [], none⟩] }
        match set_field fuel s₁ poid name v with
        | .error e => .error e
        | .ok s₂ =>
          let obj₂ := listNthD emptyObj s₂.objects oid
          let obj₃ : ObjData := { obj₂ with fields := dictSet obj₂.fields name v }
          .ok { s₂ with objects := listSetNth s₂.objects oid obj₃ }
      | none =>
        .error (.pyNameError
          ("Field " ++ sq ++ name ++ sq ++ " not found in class " ++
           sq ++ obj.classDef.name ++ sq))

/-- `MusArray.get`: bounds-checked element read (`IndexError` outside
`[0, len)`).  The `isinstance(index, int)` guard of the source is
satisfied by construction (the only caller passes `int(name)`). -/
def musArray_get (s : Interp) (aid : Nat) (index : Int) :
    Except Err Value :=
  let arr := listNthD ⟨[], ""⟩ s.arrays aid
  if index < 0 ∨ index ≥ arr.elements.length then
    .error (.pyIndexError ("Array index " ++ toString index ++ " out of bounds"))
  else .ok (listNthD .vnone arr.elements index.toNat)

/-- `MusArray.set`: bounds-checked element write. -/
def musArray_set (s : Interp) (aid : Nat) (index : Int) (v : Value) :
    Except Err Interp :=
  let arr := listNthD ⟨[], ""⟩ s.arrays aid
  if index < 0 ∨ index ≥ arr.elements.length then
    .error (.pyIndexError ("Array index " ++ toString index ++ " out of bounds"))
  else
    let arr₁ : ArrData := { arr with elements := listSetNth arr.elements index.toNat v }
    .ok { s with arrays := listSetNth s.arrays aid arr₁ }

/-! ## Raw-value helpers mirroring the Python built-in behaviour the
interpreter relies on -/

/-- `isinstance(v, (int, float))`: Python `bool` is a subclass of
`int`, so booleans count as numbers here, exactly as in the source's
`check_number_operand(s)` and the `+` numeric test. -/
def pyIsNumber : Value → Bool
  | .vint _ => true
  | .vfloat _ => true
  | .vbool _ => true
  | _ => false

/-- `isinstance(v, str)`. -/
def isStrVal : Value → Bool
  | .vstr _ => true
  | _ => false

/-- Whether the value is an `int` in Python (including `bool`). -/
def isIntLike : Value → Bool
  | .vint _ => true
  | .vbool _ => true
  | _ => false

/-- Numeric value of an `int`-like operand (`True` counts as 1). -/
def numAsInt : Value → Int
  | .vint n => n
  | .vbool b => if b then 1 else 0
  | _ => 0

/-- Numeric value of any numeric operand as an exact rational.
Python `float` results are modelled exactly; the claims only evaluate
points where binary floating point is exact. -/
def numAsRat : Value → ℚ
  | .vint n => (n : ℚ)
  | .vbool b => if b then 1 else 0
  | .vfloat q => q
  | _ => 0

/-- Python `+` on two numbers: `int` when both operands are `int`-like,
`float` otherwise. -/
def pyAdd (a b : Value) : Value :=
  if isIntLike a && isIntLike b then .vint (numAsInt a + numAsInt b)
  else .vfloat (numAsRat a + numAsRat b)

/-- Python `-` on two numbers. -/
def pySub (a b : Value) : Value :=
  if isIntLike a && isIntLike b then .vint (numAsInt a - numAsInt b)
  else .vfloat (numAsRat a - numAsRat b)

/-- Python `*` on two numbers. -/
def pyMul (a b : Value) : Value :=
  if isIntLike a && isIntLike b then .vint (numAsInt a * numAsInt b)
  else .vfloat (numAsRat a * numAsRat b)

/-- Python `/` on two numbers: TRUE division, always a `float` — two
integers do not produce an integer quotient. -/
def pyDivVal (a b : Value) : Value :=
  .vfloat (numAsRat a / numAsRat b)

/-- Floor-convention remainder on rationals (the sign convention of
Python `%`). -/
def qfmod (a b : ℚ) : ℚ := a - b * ((a / b).floor : ℚ)

/-- Python `%` on two numbers: `int` remainder with the divisor's sign
(`Int.fmod`) when both are `int`-like, `float` remainder otherwise. -/
def pyModVal (a b : Value) : Value :=
  if isIntLike a && isIntLike b then .vint (Int.fmod (numAsInt a) (numAsInt b))
  else .vfloat (qfmod (numAsRat a) (numAsRat b))

/-- Python unary `-` on a number (`-True` is the int `-1`). -/
def pyNeg : Value → Value
  | .vint n => .vint (-n)
  | .vbool b => .vint (-(if b then (1 : Int) else 0))
  | .vfloat q => .vfloat (-q)
  | v => v

/-- `Interpreter.is_truthy`: `None` is false, booleans are themselves,
everything else (including 0, empty strings and empty arrays) is true. -/
def is_truthy : Value → Bool
  | .vnone => false
  | .vbool b => b
  | _ => true

/-- Fractional-digit expansion used by the float renderer. -/
def fracDigitsAux : Nat → ℚ → String
  | 0, _ => ""
  | n + 1, r =>
    if r = 0 then ""
    else
      let r10 := r * 10
      toString r10.floor ++ fracDigitsAux n (r10 - (r10.floor : ℚ))

/-- Python `str` of a `float`, for values with a short exact decimal
expansion (all floats the embedded programs produce); longer expansions
are truncated at 17 digits, which no claim exercises. -/
def pyFloatStr (q : ℚ) : String :=
  let sign := if q < 0 then "-" else ""
  let a := |q|
  let ipart := a.floor
  let frac := a - (ipart : ℚ)
  if frac = 0 then sign ++ toString ipart ++ ".0"
  else sign ++ toString ipart ++ "." ++ fracDigitsAux 17 frac

/-- Python `==` between structural equality of function values
(dataclass `__eq__` over name, params, body, closure, `native_fn`);
closure environments are compared by arena reference, which agrees with
the structural Python comparison on every state the embedded code
constructs. -/
def funcVBeq (f g : MusFunctionV) : Bool :=
  f.name == g.name && f.params == g.params && stmtListBeq f.body g.body &&
  f.closure == g.closure && f.nativeFn == g.nativeFn

/-- Equality of method tables. -/
def methodTableBeq :
    List (String × MusFunctionV) → List (String × MusFunctionV) → Bool
  | [], [] => true
  | (n₁, f₁) :: as_, (n₂, f₂) :: bs =>
    n₁ == n₂ && funcVBeq f₁ f₂ && methodTableBeq as_ bs
  | _, _ => false

mutual
/-- Python `==` on raw interpreter values (`Interpreter.is_equal`'s
final `a == b`): numbers compare numerically across `int`/`bool`/
`float`, strings by content, `MusArray`/`MusObject`/`MusClass` by their
dataclass-generated structural equality (environment references
compared by arena index, see `funcVBeq`), different kinds unequal.
Fuel bounds the recursion through arena references. -/
def valueBeq : Nat → Interp → Value → Value → Bool
  | 0, _, _, _ => false
  | fuel + 1, s, a, b =>
    match a, b with
    | .vnone, .vnone => true
    | .vstr x, .vstr y => x == y
    | .vlist x, .vlist y => exprListBeq x y
    | .vexprNode x, .vexprNode y => exprBeq x y
    | .varr i, .varr j =>
      let ai := listNthD ⟨[], ""⟩ s.arrays i
      let aj := listNthD ⟨[], ""⟩ s.arrays j
      ai.element_type == aj.element_type &&
        valueListBeq fuel s ai.elements aj.elements
    | .vfun f, .vfun g => funcVBeq f g
    | .vclass c, .vclass d => classBeq fuel s c d
    | .vobj i, .vobj j =>
      let oi := listNthD emptyObj s.objects i
      let oj := listNthD emptyObj s.objects j
      classBeq fuel s oi.classDef oj.classDef &&
        objFieldsBeq fuel s oi.fields oj.fields &&
        oi.environment == oj.environment
    | x, y =>
      if pyIsNumber x && pyIsNumber y then numAsRat x == numAsRat y else false
  termination_by structural f => f

/-- Element-wise `==` on Python lists of values. -/
def valueListBeq : Nat → Interp → List Value → List Value → Bool
  | 0, _, _, _ => false
  | _ + 1, _, [], [] => true
  | fuel + 1, s, a :: as_, b :: bs =>
    valueBeq fuel s a b && valueListBeq fuel s as_ bs
  | _ + 1, _, _, _ => false
  termination_by structural f => f

/-- Structural equality of class values (dataclass `__eq__`). -/
def classBeq : Nat → Interp → ClassV → ClassV → Bool
  | 0, _, _, _ => false
  | fuel + 1, s, .mk n₁ f₁ m₁ p₁ e₁, .mk n₂ f₂ m₂ p₂ e₂ =>
    n₁ == n₂ && classFieldsBeq fuel s f₁ f₂ && methodTableBeq m₁ m₂ &&
    (match p₁, p₂ with
     | none, none => true
     | some c₁, some c₂ => classBeq fuel s c₁ c₂
     | _, _ => false) &&
    e₁ == e₂
  termination_by structural f => f

/-- Equality of class field templates (name, type, default value). -/
def classFieldsBeq : Nat → Interp →
    List (String × String × Value) → List (String × String × Value) → Bool
  | 0, _, _, _ => false
  | _ + 1, _, [], [] => true
  | fuel + 1, s, (n₁, t₁, v₁) :: as_, (n₂, t₂, v₂) :: bs =>
    n₁ == n₂ && t₁ == t₂ && valueBeq fuel s v₁ v₂ && classFieldsBeq fuel s as_ bs
  | _ + 1, _, _, _ => false
  termination_by structural f => f

/-- Equality of instance field dicts. -/
def objFieldsBeq : Nat → Interp →
    List (String × Value) → List (String × Value) → Bool
  | 0, _, _, _ => false
  | _ + 1, _, [], [] => true
  | fuel + 1, s, (n₁, v₁) :: as_, (n₂, v₂) :: bs =>
    n₁ == n₂ && valueBeq fuel s v₁ v₂ && objFieldsBeq fuel s as_ bs
  | _ + 1, _, _, _ => false
  termination_by structural f => f
end

/-- `Interpreter.is_equal`: both `None` → true, one `None` → false,
else Python `==`. -/
def is_equal (fuel : Nat) (s : Interp) (a b : Value) : Bool :=
  match a, b with
  | .vnone, .vnone => true
  | .vnone, _ => false
  | _, _ => valueBeq fuel s a b

/-- Python `str` of a raw interpreter value, as `print`/`+` use it:
`None`/`True`/`False` keep their Python capitalisation, raw expression
lists and nodes render via dataclass `repr`, `MusArray`/`MusFunction`/
`MusClass`/`MusObject` via their `__str__`.  `id(obj)` in
`MusObject.__str__` is modelled by the object's arena index (the source
only requires a stable per-object number). -/
def pyStrVal : Nat → Interp → Value → String
  | 0, _, _ => ""
  | fuel + 1, s, v =>
    match v with
    | .vnone => "None"
    | .vint n => toString n
    | .vfloat q => pyFloatStr q
    | .vstr str => str
    | .vbool b => pyBoolRepr b
    | .vlist es => exprListRepr es
    | .varr aid =>
      let a := listNthD ⟨[], ""⟩ s.arrays aid
      "[" ++ String.intercalate ", " (a.elements.map (pyStrVal fuel s)) ++ "]"
    | .vfun f =>
      "fun " ++ f.name ++ "(" ++
        String.intercalate ", " (f.params.map (fun p => p.1 ++ " => " ++ p.2)) ++ ")"
    | .vclass c => "class " ++ c.name
    | .vobj oid => (listNthD emptyObj s.objects oid).classDef.name ++ "@" ++ toString oid
    | .vexprNode e => exprRepr e

/-! ## The tree-walking interpreter (`core/interpreter.py`) -/

/-- The fabricated token the interpreter attaches to errors raised
without a source position (`Token(TokenType.EOF, "", None, 0, 0)`). -/
def eofToken : Token := ⟨.EOF, "", none, 0, 0⟩

/-- Lookup in `Interpreter.locals` (a dict keyed by expression nodes;
frozen dataclasses hash/compare structurally). -/
def localsGet : List (Expr × Nat) → Expr → Option Nat
  | [], _ => none
  | (k, d) :: rest, e => if exprBeq k e then some d else localsGet rest e

/-- `Interpreter.lookup_variable`: when `locals` records a resolved
distance, read at that distance from the current environment; otherwise
fall back to `self.globals.get_variable(name)` — the GLOBAL
environment, not the current one.  `resolve` is never called anywhere
in the repository, so the distance branch never fires in a reachable
state. -/
def lookup_variable (fuel : Nat) (s : Interp) (envId : Nat) (name : String)
    (e : Expr) : Except Err Value :=
  match localsGet s.locals e with
  | some d => get_at fuel s envId d name
  | none => .ok (get_variable fuel s 0 name)

/-- `Interpreter.check_number_operand`. -/
def check_number_operand (op : Token) (v : Value) : Except Err Unit :=
  if pyIsNumber v then .ok () else .error (.interpErr "Operand must be a number" op)

/-- `Interpreter.check_number_operands`. -/
def check_number_operands (op : Token) (l r : Value) : Except Err Unit :=
  if pyIsNumber l && pyIsNumber r then .ok ()
  else .error (.interpErr "Operands must be numbers" op)

/-- `hasattr(callee_val, "native_fn")`: `native_fn` is a declared
dataclass field of `MusFunction` (defaulting to `None`), so the
generated `__init__` sets the attribute on every instance and the test
is true for every function value — including user-defined ones. -/
def pyHasattrNativeFn (_f : MusFunctionV) : Bool := true

/-- Convert a `Literal.value` payload to the runtime value
(`case Literal(value, _): return value` — an array literal yields the
raw list of its unevaluated element expressions). -/
def litToValue : LitVal → Value
  | .lint n => .vint n
  | .lstr s => .vstr s
  | .lbool b => .vbool b
  | .lnone => .vnone
  | .llist es => .vlist es

/-- Bind parameters to arguments via `zip` (truncating at the shorter
list, as Python `zip` does — the core has no arity check). -/
def bindParams (s : Interp) (envId : Nat) :
    List (String × String) → List Value → Interp
  | (pn, pt) :: ps, a :: as_ =>
    bindParams (define_variable s envId pn (some pt) a) envId ps as_
  | _, _ => s

/-- The native builtins of `define_builtins`: `out` prints the `str`
form and returns `None`; `length` returns the element count of a
`MusArray`. -/
def applyNative (fuel : Nat) (s : Interp) (nid : NativeId) (args : List Value) :
    Except Err (Value × Interp) :=
  match nid with
  | .outFn =>
    match args with
    | [v] => .ok (.vnone, { s with output := s.output ++ [pyStrVal fuel s v] })
    | _ => .error (.pyRuntimeError
        ("Function " ++ sq ++ "out" ++ sq ++ " expects exactly one argument"))
  | .lengthFn =>
    match args with
    | [v] =>
      match v with
      | .varr aid => .ok (.vint ((listNthD ⟨[], ""⟩ s.arrays aid).elements.length), s)
      | _ => .error (.pyRuntimeError
          ("Function " ++ sq ++ "length" ++ sq ++ " expects an array argument"))
    | _ => .error (.pyRuntimeError
        ("Function " ++ sq ++ "length" ++ sq ++ " expects exactly one argument"))

/-- The `Binary` arm of `Interpreter.evaluate`, applied to the two
already-evaluated operands. -/
def evalBinaryOp (fuel : Nat) (s : Interp) (op : Token) (lv rv : Value) :
    Except Err Value :=
  match op.type with
  | .PLUS =>
    if pyIsNumber lv && pyIsNumber rv then .ok (pyAdd lv rv)
    else if isStrVal lv || isStrVal rv then
      .ok (.vstr (pyStrVal fuel s lv ++ pyStrVal fuel s rv))
    else .error (.interpErr "Operands must be numbers or strings" op)
  | .MINUS => do
    let _ ← check_number_operands op lv rv
    .ok (pySub lv rv)
  | .MULTIPLY => do
    let _ ← check_number_operands op lv rv
    .ok (pyMul lv rv)
  | .DIVIDE => do
    let _ ← check_number_operands op lv rv
    if numAsRat rv == 0 then .error (.interpErr "Division by zero" op)
    else .ok (pyDivVal lv rv)
  | .MODULO => do
    let _ ← check_number_operands op lv rv
    if numAsRat rv == 0 then .error (.interpErr "Modulo by zero" op)
    else .ok (pyModVal lv rv)
  | .GREATER => do
    let _ ← check_number_operands op lv rv
    .ok (.vbool (numAsRat rv < numAsRat lv))
  | .GREATER_EQUAL => do
    let _ ← check_number_operands op lv rv
    .ok (.vbool (numAsRat rv ≤ numAsRat lv))
  | .LESS => do
    let _ ← check_number_operands op lv rv
    .ok (.vbool (numAsRat lv < numAsRat rv))
  | .LESS_EQUAL => do
    let _ ← check_number_operands op lv rv
    .ok (.vbool (numAsRat lv ≤ numAsRat rv))
  | .EQUALS => .ok (.vbool (is_equal fuel s lv rv))
  | .NOT_EQUALS => .ok (.vbool (!is_equal fuel s lv rv))
  | _ => .error (.interpErr ("Unknown operator: " ++ tokenTypeStr op.type) op)

mutual
/-- `Interpreter.evaluate`, fuel-indexed.  The current environment is
passed explicitly (the source's `self.environment`, swapped by
`execute_block`); results pair the value with the updated arena
state. -/
def evaluate : Nat → Interp → Nat → Expr → Except Err (Value × Interp)
  | 0, _, _, _ => .error .outOfFuel
  | fuel + 1, s, env, e =>
    match e with
    | .lit v _ => .ok (litToValue v, s)
    | .varE name tok =>
      match lookup_variable fuel s env name (.varE name tok) with
      | .error er => .error er
      | .ok v => .ok (v, s)
    | .thisE tok =>
      match lookup_variable fuel s env "this" (.thisE tok) with
      | .error er => .error er
      | .ok v => .ok (v, s)
    | .superE method tok =>
      match localsGet s.locals (.superE method tok) with
      | none =>
        .error (.interpErr (sq ++ "super" ++ sq ++ " reference not available") tok)
      | some _ =>
        -- Dead even when a distance is present: `get_class` is keyed by
        -- strings but is handed the class VALUE of `super`, so the
        -- lookup misses on every chain and the "Superclass not found"
        -- branch fires.
        .error (.interpErr "Superclass not found" tok)
    | .binary l op r =>
      match evaluate fuel s env l with
      | .error er => .error er
      | .ok (lv, s₁) =>
        match evaluate fuel s₁ env r with
        | .error er => .error er
        | .ok (rv, s₂) =>
          match evalBinaryOp fuel s₂ op lv rv with
          | .error er => .error er
          | .ok v => .ok (v, s₂)
    | .unary op r =>
      match evaluate fuel s env r with
      | .error er => .error er
      | .ok (rv, s₁) =>
        match op.type with
        | .MINUS =>
          match check_number_operand op rv with
          | .error er => .error er
          | .ok _ => .ok (pyNeg rv, s₁)
        | .NOT => .ok (.vbool (!is_truthy rv), s₁)
        | _ =>
          .error (.interpErr ("Unknown operator: " ++ tokenTypeStr op.type) op)
    | .call callee args tok =>
      match evaluate fuel s env callee with
      | .error er => .error er
      | .ok (cv, s₁) =>
        match cv with
        | .vfun fn =>
          match evalList fuel s₁ env args with
          | .error er => .error er
          | .ok (argVals, s₂) =>
            if pyHasattrNativeFn fn then
              match fn.nativeFn with
              | some nid => applyNative fuel s₂ nid argVals
              | none =>
                .error (.pyTypeError
                  (sq ++ "NoneType" ++ sq ++ " object is not callable"))
            else
              -- Dead code (lines 235-248 of the source): kept faithfully.
              let parentEnv : Nat := match fn.closure with | some c => c | none => 0
              let (s₃, callEnv) := newEnv s₂ (some parentEnv)
              let s₄ := bindParams s₃ callEnv fn.params argVals
              match execute_block fuel s₄ callEnv fn.body with
              | .error er => .error er
              | .ok (some rv, s₅) => .ok (rv, s₅)
              | .ok (none, s₅) => .ok (.vnone, s₅)
        | .vclass c =>
          let (s₂, oid) := create_instance s₁ c
          match get_method c "init" with
          | some initMethod =>
            let (bound₀, s₃) := method_bind s₂ initMethod oid
            match evalList fuel s₃ env args with
            | .error er => .error er
            | .ok (argVals, s₄) =>
              let bound : MusFunctionV := { bound₀ with nativeFn := none }
              let parentEnv : Nat :=
                match bound.closure with | some c => c | none => 0
              let (s₅, callEnv) := newEnv s₄ (some parentEnv)
              let s₆ := bindParams s₅ callEnv bound.params argVals
              match execute_block fuel s₆ callEnv bound.body with
              | .error er => .error er
              | .ok (_, s₇) => .ok (.vobj oid, s₇)
          | none => .ok (.vobj oid, s₂)
        | _ => .error (.interpErr "Can only call functions and classes" tok)
    | .get objE name tok =>
      match evaluate fuel s env objE with
      | .error er => .error er
      | .ok (ov, s₁) =>
        match ov with
        | .varr aid =>
          if name == "length" then
            .ok (.vint ((listNthD ⟨[], ""⟩ s₁.arrays aid).elements.length), s₁)
          else
            match pyIntParse name with
            | some i =>
              match musArray_get s₁ aid i with
              | .error er => .error er
              | .ok v => .ok (v, s₁)
            | none => .error (.interpErr ("Unknown array method: " ++ name) tok)
        | .vobj oid => get_field fuel s₁ oid name
        | _ => .error (.interpErr "Only instances have properties" tok)
    | .setE objE name valueE tok =>
      match evaluate fuel s env objE with
      | .error er => .error er
      | .ok (ov, s₁) =>
        match ov with
        | .varr aid =>
          match pyIntParse name with
          | some i =>
            match evaluate fuel s₁ env valueE with
            | .error er => .error er
            | .ok (vv, s₂) =>
              match musArray_set s₂ aid i vv with
              | .error er => .error er
              | .ok s₃ => .ok (vv, s₃)
          | none => .error (.interpErr ("Invalid array index: " ++ name) tok)
        | .vobj oid =>
          match evaluate fuel s₁ env valueE with
          | .error er => .error er
          | .ok (vv, s₂) =>
            match set_field fuel s₂ oid name vv with
            | .error er => .error er
            | .ok s₃ => .ok (vv, s₃)
        | _ => .error (.interpErr "Only instances have fields" tok)
  termination_by structural f => f

/-- Left-to-right evaluation of a call's argument list. -/
def evalList : Nat → Interp → Nat → List Expr → Except Err (List Value × Interp)
  | 0, _, _, _ => .error .outOfFuel
  | _ + 1, s, _, [] => .ok ([], s)
  | fuel + 1, s, env, e :: rest =>
    match evaluate fuel s env e with
    | .error er => .error er
    | .ok (v, s₁) =>
      match evalList fuel s₁ env rest with
      | .error er => .error er
      | .ok (vs, s₂) => .ok (v :: vs, s₂)
  termination_by structural f => f

/-- `Interpreter.execute`, fuel-indexed.  `some v` in the result is the
`ReturnValue` signal unwinding with value `v`. -/
def execute : Nat → Interp → Nat → Stmt → Except Err (Option Value × Interp)
  | 0, _, _, _ => .error .outOfFuel
  | fuel + 1, s, env, st =>
    match st with
    | .exprStmt e =>
      match evaluate fuel s env e with
      | .error er => .error er
      | .ok (_, s₁) => .ok (none, s₁)
    | .varDecl name ty initE _ =>
      match initE with
      | none => .ok (none, define_variable s env name (some ty) .vnone)
      | some ie =>
        match evaluate fuel s env ie with
        | .error er => .error er
        | .ok (v, s₁) =>
          if pyStartswith ty "array<" && pyEndswith ty ">" then
            let elemTy := pySlice6DropLast ty
            match v with
            | .varr _ => .ok (none, define_variable s₁ env name (some ty) v)
            | .vlist es =>
              let aid := s₁.arrays.length
              let s₂ := { s₁ with arrays := s₁.arrays ++ [⟨es.map .vexprNode, elemTy⟩] }
              .ok (none, define_variable s₂ env name (some ty) (.varr aid))
            | other =>
              let aid := s₁.arrays.length
              let s₂ := { s₁ with arrays := s₁.arrays ++ [⟨[other], elemTy⟩] }
              .ok (none, define_variable s₂ env name (some ty) (.varr aid))
          else .ok (none, define_variable s₁ env name (some ty) v)
    | .funDecl name params body _ =>
      .ok (none, define_function s env name params body)
    | .classDecl name superO fields methods tok =>
      let parentRes : Except Err (Option ClassV) :=
        match superO with
        | some supName =>
          match get_class fuel s env supName with
          | none =>
            .error (.interpErr
              ("Superclass " ++ sq ++ supName ++ sq ++ " not found") tok)
          | some p => .ok (some p)
        | none => .ok none
      match parentRes with
      | .error er => .error er
      | .ok parent =>
        match evalClassFields fuel s env fields with
        | .error er => .error er
        | .ok (fieldList, s₁) =>
          let classFields := fieldList.foldl
            (fun d nv => dictSet d nv.1 nv.2) ([] : List (String × String × Value))
          let classMethods := (methods.map
            (fun m => (m.1, (⟨m.1, m.2.1, m.2.2.1, some env, none⟩ : MusFunctionV)))).foldl
            (fun d nf => dictSet d nf.1 nf.2) ([] : List (String × MusFunctionV))
          let (s₂, _) := define_class s₁ env name classFields classMethods parent
          .ok (none, s₂)
    | .block stmts =>
      let (s₁, child) := newEnv s (some env)
      execute_block fuel s₁ child stmts
    | .ifS cond thenB elseB =>
      match evaluate fuel s env cond with
      | .error er => .error er
      | .ok (cv, s₁) =>
        if is_truthy cv then execute fuel s₁ env thenB
        else
          match elseB with
          | some eb => execute fuel s₁ env eb
          | none => .ok (none, s₁)
    | .whileS cond body => execWhile fuel s env cond body
    | .forS iter iterable body =>
      match evaluate fuel s env iterable with
      | .error er => .error er
      | .ok (iv, s₁) =>
        match iv with
        | .vlist es => execForIn fuel s₁ env iter es body
        | _ => .error (.interpErr "Can only iterate over arrays" eofToken)
    | .returnS valueE _ =>
      match valueE with
      | some ve =>
        match evaluate fuel s env ve with
        | .error er => .error er
        | .ok (v, s₁) => .ok (some v, s₁)
      | none => .ok (some .vnone, s)
  termination_by structural f => f

/-- `Interpreter.execute_block`: run the statements in the given
environment; a return signal or error stops the sequence (the source's
environment save/restore is the explicit `env` parameter here). -/
def execute_block : Nat → Interp → Nat → List Stmt → Except Err (Option Value × Interp)
  | 0, _, _, _ => .error .outOfFuel
  | _ + 1, s, _, [] => .ok (none, s)
  | fuel + 1, s, env, st :: rest =>
    match execute fuel s env st with
    | .error er => .error er
    | .ok (some v, s₁) => .ok (some v, s₁)
    | .ok (none, s₁) => execute_block fuel s₁ env rest
  termination_by structural f => f

/-- The `While` arm: re-evaluate the condition before each iteration;
a return signal raised in the body unwinds through the loop. -/
def execWhile : Nat → Interp → Nat → Expr → Stmt → Except Err (Option Value × Interp)
  | 0, _, _, _, _ => .error .outOfFuel
  | fuel + 1, s, env, cond, body =>
    match evaluate fuel s env cond with
    | .error er => .error er
    | .ok (cv, s₁) =>
      if is_truthy cv then
        match execute fuel s₁ env body with
        | .error er => .error er
        | .ok (some v, s₂) => .ok (some v, s₂)
        | .ok (none, s₂) => execWhile fuel s₂ env cond body
      else .ok (none, s₁)
  termination_by structural f => f

/-- The `For` arm's iteration: a fresh child environment per element,
the loop variable defined with declared type `"any"`, the body run via
`execute_block` on the singleton statement list. -/
def execForIn : Nat → Interp → Nat → String → List Expr → Stmt →
    Except Err (Option Value × Interp)
  | 0, _, _, _, _, _ => .error .outOfFuel
  | _ + 1, s, _, _, [], _ => .ok (none, s)
  | fuel + 1, s, env, iter, item :: rest, body =>
    let (s₁, child) := newEnv s (some env)
    let s₂ := define_variable s₁ child iter (some "any") (.vexprNode item)
    match execute_block fuel s₂ child [body] with
    | .error er => .error er
    | .ok (some v, s₃) => .ok (some v, s₃)
    | .ok (none, s₃) => execForIn fuel s₃ env iter rest body
  termination_by structural f => f

/-- Field-initializer evaluation of the `ClassDeclaration` arm, in
declaration order (`None` when a field has no initializer). -/
def evalClassFields : Nat → Interp → Nat →
    List (String × String × Option Expr × Token) →
    Except Err (List (String × (String × Value)) × Interp)
  | 0, _, _, _ => .error .outOfFuel
  | _ + 1, s, _, [] => .ok ([], s)
  | fuel + 1, s, env, (fname, fty, finit, _) :: rest =>
    let valRes : Except Err (Value × Interp) :=
      match finit with
      | some ie => evaluate fuel s env ie
      | none => .ok (.vnone, s)
    match valRes with
    | .error er => .error er
    | .ok (v, s₁) =>
      match evalClassFields fuel s₁ env rest with
      | .error er => .error er
      | .ok (vs, s₂) => .ok ((fname, (fty, v)) :: vs, s₂)
  termination_by structural f => f
end

/-- Message extraction `str(e)` used when `Interpreter.interpret` wraps
a non-`InterpreterError` exception (a bare `ReturnValue` stringifies to
the empty string). -/
def errMessage : Err → String
  | .interpErr m _ => m
  | .pyValueError m => m
  | .pyTypeError m => m
  | .pyIndexError m => m
  | .pyNameError m => m
  | .pyRuntimeError m => m
  | .outOfFuel => ""

/-- `Interpreter.interpret`: execute the statements at the global
environment (index 0); `InterpreterError`s propagate unchanged, any
other exception — including a `ReturnValue` escaping the top level — is
wrapped into an `InterpreterError` at the fabricated EOF token.  Fuel
exhaustion of the embedding propagates unchanged. -/
def interpret : Nat → Interp → List Stmt → Except Err Interp
  | 0, _, _ => .error .outOfFuel
  | _ + 1, s, [] => .ok s
  | fuel + 1, s, st :: rest =>
    match execute fuel s 0 st with
    | .ok (none, s₁) => interpret fuel s₁ rest
    | .ok (some _, _) => .error (.interpErr "" eofToken)
    | .error (.interpErr m t) => .error (.interpErr m t)
    | .error .outOfFuel => .error .outOfFuel
    | .error er => .error (.interpErr (errMessage er) eofToken)

/-- The interpreter's initial state: a global environment holding the
native `out` and `length` functions in the function namespace
(`define_builtins`), empty arenas, no output, and the never-populated
`locals` dict. -/
def initialInterp : Interp :=
  { envs := [⟨none, [],
      [("out", ⟨"out", [("value", "any")], [], none, some .outFn⟩),
       ("length", ⟨"length", [("array", "array")], [], none, some .lengthFn⟩)],
      []⟩],
    objects := [], arrays := [], output := [], locals := [] }

/-! ## The recursive-descent parser (`core/parser.py`)

`Parser` holds the token list and a mutable `current` index; the
embedding passes the index explicitly and returns the updated index.
A raised `ParserError` carries the message, the offending token, and
the index `self.current` had at raise time (the caught exception in
`declaration` resumes `synchronize` from that mutated index). -/

/-- Surround with single quotes, for the parser's quoted error messages. -/
def q (s : String) : String := sq ++ s ++ sq

/-- A raised `ParserError`, or fuel exhaustion of the embedding. -/
inductive PErr where
  | err (message : String) (token : Token) (pos : Nat)
  | fuelOut

/-- `Parser.peek`: the token at `current` (the lexer guarantees a
trailing EOF token, so `current` never passes the end). -/
def pPeek (toks : List Token) (pos : Nat) : Token := toks.getD pos eofToken

/-- `Parser.previous`: the token before `current`. -/
def pPrevious (toks : List Token) (pos : Nat) : Token :=
  toks.getD (pos - 1) eofToken

/-- `Parser.is_at_end`. -/
def pIsAtEnd (toks : List Token) (pos : Nat) : Bool :=
  (pPeek toks pos).type == .EOF

/-- `Parser.check`. -/
def pCheck (toks : List Token) (pos : Nat) (ty : TokenType) : Bool :=
  !pIsAtEnd toks pos && (pPeek toks pos).type == ty

/-- `Parser.advance`: step unless at end; the result index's
`previous` is the consumed token. -/
def pAdvance (toks : List Token) (pos : Nat) : Nat :=
  if pIsAtEnd toks pos then pos else pos + 1

/-- `Parser.match` with one alternative. -/
def pMatch1 (toks : List Token) (pos : Nat) (ty : TokenType) : Bool × Nat :=
  if pCheck toks pos ty then (true, pAdvance toks pos) else (false, pos)

/-- `Parser.match` with several alternatives (first check wins). -/
def pMatchList (toks : List Token) (pos : Nat) (tys : List TokenType) :
    Bool × Nat :=
  if tys.any (pCheck toks pos) then (true, pAdvance toks pos) else (false, pos)

/-- `Parser.consume`: advance past a token of the given type or raise
`ParserError(message, self.peek())`. -/
def pConsume (toks : List Token) (pos : Nat) (ty : TokenType) (msg : String) :
    Except PErr (Token × Nat) :=
  if pCheck toks pos ty then .ok (pPeek toks pos, pAdvance toks pos)
  else .error (.err msg (pPeek toks pos) pos)

/-- The loop body of `Parser.synchronize` (bounded by the remaining
token count, which the loop strictly consumes). -/
def syncLoop (toks : List Token) : Nat → Nat → Nat
  | 0, pos => pos
  | fuel + 1, pos =>
    if pIsAtEnd toks pos then pos
    else if (pPrevious toks pos).type == .RIGHT_BRACE then pos
    else if [TokenType.CLASS, .FUN, .VAR, .IF, .WHILE, .FOR,
        .RETURN].any (fun t => (pPeek toks pos).type == t) then pos
    else syncLoop toks fuel (pAdvance toks pos)

/-- `Parser.synchronize`: discard tokens until a `}` was just consumed
or the next token starts a declaration/statement keyword. -/
def synchronize (toks : List Token) (pos : Nat) : Nat :=
  syncLoop toks (toks.length + 1) (pAdvance toks pos)

/-- Convert a token's literal payload into a `Literal` value
(`Literal(self.previous().literal, self.previous())`). -/
def tokLitToLitVal : Option TokLit → LitVal
  | none => .lnone
  | some (.tint n) => .lint n
  | some (.tstr s) => .lstr s
  | some (.tbool b) => .lbool b

mutual
/-- `Parser.declaration`: dispatch on `class`/`fun`/`var`, else a
statement; a `ParserError` is caught, `synchronize` runs from the
raise-time index, and a placeholder `ExpressionStmt(Literal(None,
error.token))` is produced. -/
def declaration (toks : List Token) : Nat → Nat → Except PErr (Stmt × Nat)
  | 0, _ => .error .fuelOut
  | fuel + 1, pos =>
    let res : Except PErr (Stmt × Nat) :=
      match pMatch1 toks pos .CLASS with
      | (true, p₁) => class_declaration toks fuel p₁
      | (false, _) =>
        match pMatch1 toks pos .FUN with
        | (true, p₁) => do
          let (fd, p₂) ← function_declaration toks fuel p₁
          .ok (.funDecl fd.1 fd.2.1 fd.2.2.1 fd.2.2.2, p₂)
        | (false, _) =>
          match pMatch1 toks pos .VAR with
          | (true, p₁) => do
            let (vd, p₂) ← var_declaration toks fuel p₁
            .ok (.varDecl vd.1 vd.2.1 vd.2.2.1 vd.2.2.2, p₂)
          | (false, _) => statement toks fuel pos
    match res with
    | .ok r => .ok r
    | .error (.err _ tok errPos) =>
      .ok (.exprStmt (.lit .lnone tok), synchronize toks errPos)
    | .error .fuelOut => .error .fuelOut
  termination_by structural f => f

/-- `Parser.class_declaration` (called with `class` already matched). -/
def class_declaration (toks : List Token) : Nat → Nat → Except PErr (Stmt × Nat)
  | 0, _ => .error .fuelOut
  | fuel + 1, pos => do
    let (nameTok, p₁) ← pConsume toks pos .IDENTIFIER "Expected class name."
    let (sup, p₂) ← class_super toks fuel p₁
    let (_, p₃) ← pConsume toks p₂ .LEFT_BRACE
      ("Expected " ++ q "\x7b" ++ " before class body.")
    let (body, p₄) ← classBodyLoop toks fuel p₃
    let (_, p₅) ← pConsume toks p₄ .RIGHT_BRACE
      ("Expected " ++ q "\x7d" ++ " after class body.")
    .ok (.classDecl nameTok.lexeme sup body.1 body.2 nameTok, p₅)
  termination_by structural f => f

/-- The optional `extends IDENT` clause of `class_declaration`. -/
def class_super (toks : List Token) : Nat → Nat → Except PErr (Option String × Nat)
  | 0, _ => .error .fuelOut
  | _ + 1, pos =>
    match pMatch1 toks pos .EXTENDS with
    | (true, p₁) => do
      let (supTok, p₂) ← pConsume toks p₁ .IDENTIFIER "Expected superclass name."
      .ok (some supTok.lexeme, p₂)
    | (false, _) => .ok (none, pos)

/-- The class-body loop: `var` declarations into the field list, `fun`
declarations into the method list, anything else raises. -/
def classBodyLoop (toks : List Token) : Nat → Nat →
    Except PErr ((List (String × String × Option Expr × Token) ×
      List (String × List (String × String) × List Stmt × Token)) × Nat)
  | 0, _ => .error .fuelOut
  | fuel + 1, pos =>
    if !pCheck toks pos .RIGHT_BRACE && !pIsAtEnd toks pos then
      match pMatch1 toks pos .VAR with
      | (true, p₁) => do
        let (fd, p₂) ← var_declaration toks fuel p₁
        let (rest, p₃) ← classBodyLoop toks fuel p₂
        .ok ((fd :: rest.1, rest.2), p₃)
      | (false, _) =>
        match pMatch1 toks pos .FUN with
        | (true, p₁) => do
          let (md, p₂) ← function_declaration toks fuel p₁
          let (rest, p₃) ← classBodyLoop toks fuel p₂
          .ok ((rest.1, md :: rest.2), p₃)
        | (false, _) =>
          .error (.err "Expected field or method declaration."
            (pPeek toks pos) pos)
    else .ok (([], []), pos)
  termination_by structural f => f

/-- `Parser.function_declaration` (called with `fun` already matched);
returns the `FunctionDeclaration` dataclass fields. -/
def function_declaration (toks : List Token) : Nat → Nat →
    Except PErr ((String × List (String × String) × List Stmt × Token) × Nat)
  | 0, _ => .error .fuelOut
  | fuel + 1, pos => do
    let (nameTok, p₁) ← pConsume toks pos .IDENTIFIER "Expected function name."
    let (_, p₂) ← pConsume toks p₁ .LEFT_PAREN
      ("Expected " ++ q "(" ++ " after function name.")
    let (params, p₃) ←
      if pCheck toks p₂ .RIGHT_PAREN then (.ok ([], p₂) : Except PErr _)
      else paramsLoop toks fuel p₂
    let (_, p₄) ← pConsume toks p₃ .RIGHT_PAREN
      ("Expected " ++ q ")" ++ " after parameters.")
    let (_, p₅) ← pConsume toks p₄ .LEFT_BRACE
      ("Expected " ++ q "\x7b" ++ " before function body.")
    let (body, p₆) ← declListLoop toks fuel p₅
    let (_, p₇) ← pConsume toks p₆ .RIGHT_BRACE
      ("Expected " ++ q "\x7d" ++ " after function body.")
    .ok ((nameTok.lexeme, params, body, nameTok), p₇)
  termination_by structural f => f

/-- The parameter do-while loop of `function_declaration`. -/
def paramsLoop (toks : List Token) : Nat → Nat →
    Except PErr (List (String × String) × Nat)
  | 0, _ => .error .fuelOut
  | fuel + 1, pos => do
    let (pnTok, p₁) ← pConsume toks pos .IDENTIFIER "Expected parameter name."
    let (_, p₂) ← pConsume toks p₁ .ARROW
      ("Expected " ++ q "=>" ++ " after parameter name.")
    let (ptTok, p₃) ← pConsume toks p₂ .IDENTIFIER "Expected parameter type."
    match pMatch1 toks p₃ .COMMA with
    | (true, p₄) => do
      let (rest, p₅) ← paramsLoop toks fuel p₄
      .ok ((pnTok.lexeme, ptTok.lexeme) :: rest, p₅)
    | (false, _) => .ok ([(pnTok.lexeme, ptTok.lexeme)], p₃)
  termination_by structural f => f

/-- The declaration loop shared by function bodies, blocks and the
program (`while not check(RIGHT_BRACE) and not is_at_end`). -/
def declListLoop (toks : List Token) : Nat → Nat → Except PErr (List Stmt × Nat)
  | 0, _ => .error .fuelOut
  | fuel + 1, pos =>
    if !pCheck toks pos .RIGHT_BRACE && !pIsAtEnd toks pos then do
      let (st, p₁) ← declaration toks fuel pos
      let (rest, p₂) ← declListLoop toks fuel p₁
      .ok (st :: rest, p₂)
    else .ok ([], pos)
  termination_by structural f => f

/-- `Parser.var_declaration` (called with `var` already matched);
returns the `VarDeclaration` dataclass fields. -/
def var_declaration (toks : List Token) : Nat → Nat →
    Except PErr ((String × String × Option Expr × Token) × Nat)
  | 0, _ => .error .fuelOut
  | fuel + 1, pos => do
    let (nameTok, p₁) ← pConsume toks pos .IDENTIFIER "Expected variable name."
    let (_, p₂) ← pConsume toks p₁ .ARROW
      ("Expected " ++ q "=>" ++ " after variable name.")
    let (typeTok, p₃) ← pConsume toks p₂ .IDENTIFIER "Expected variable type."
    match pMatch1 toks p₃ .ASSIGN with
    | (true, p₄) => do
      let (ini, p₅) ← expression toks fuel p₄
      .ok ((nameTok.lexeme, typeTok.lexeme, some ini, nameTok), p₅)
    | (false, _) => .ok ((nameTok.lexeme, typeTok.lexeme, none, nameTok), p₃)

/-- `Parser.statement`. -/
def statement (toks : List Token) : Nat → Nat → Except PErr (Stmt × Nat)
  | 0, _ => .error .fuelOut
  | fuel + 1, pos =>
    match pMatch1 toks pos .IF with
    | (true, p₁) => if_statement toks fuel p₁
    | (false, _) =>
      match pMatch1 toks pos .WHILE with
      | (true, p₁) => while_statement toks fuel p₁
      | (false, _) =>
        match pMatch1 toks pos .FOR with
        | (true, p₁) => for_statement toks fuel p₁
        | (false, _) =>
          match pMatch1 toks pos .RETURN with
          | (true, p₁) => return_statement toks fuel p₁
          | (false, _) =>
            match pMatch1 toks pos .LEFT_BRACE with
            | (true, p₁) => do
              let (stmts, p₂) ← blockList toks fuel p₁
              .ok (.block stmts, p₂)
            | (false, _) => expression_statement toks fuel pos
  termination_by structural f => f

/-- `Parser.if_statement`. -/
def if_statement (toks : List Token) : Nat → Nat → Except PErr (Stmt × Nat)
  | 0, _ => .error .fuelOut
  | fuel + 1, pos => do
    let (_, p₁) ← pConsume toks pos .LEFT_PAREN
      ("Expected " ++ q "(" ++ " after " ++ q "if" ++ ".")
    let (cond, p₂) ← expression toks fuel p₁
    let (_, p₃) ← pConsume toks p₂ .RIGHT_PAREN
      ("Expected " ++ q ")" ++ " after condition.")
    let (thenB, p₄) ← statement toks fuel p₃
    match pMatch1 toks p₄ .ELSE with
    | (true, p₅) => do
      let (elseB, p₆) ← statement toks fuel p₅
      .ok (.ifS cond thenB (some elseB), p₆)
    | (false, _) => .ok (.ifS cond thenB none, p₄)
  termination_by structural f => f

/-- `Parser.while_statement`. -/
def while_statement (toks : List Token) : Nat → Nat → Except PErr (Stmt × Nat)
  | 0, _ => .error .fuelOut
  | fuel + 1, pos => do
    let (_, p₁) ← pConsume toks pos .LEFT_PAREN
      ("Expected " ++ q "(" ++ " after " ++ q "while" ++ ".")
    let (cond, p₂) ← expression toks fuel p₁
    let (_, p₃) ← pConsume toks p₂ .RIGHT_PAREN
      ("Expected " ++ q ")" ++ " after condition.")
    let (body, p₄) ← statement toks fuel p₃
    .ok (.whileS cond body, p₄)
  termination_by structural f => f

/-- `Parser.for_statement` (called with `for` already matched): the
C-style header `(` [`var`] IDENT `=` expr `;` expr `;` expr `)` is the
only recognized form — the `=` is consumed unconditionally right after
the iterator identifier — and the loop is desugared on the spot into
`Block([VarDeclaration(iter, "integer", init, synthesized-token),
While(cond, body-with-increment-appended)])`. -/
def for_statement (toks : List Token) : Nat → Nat → Except PErr (Stmt × Nat)
  | 0, _ => .error .fuelOut
  | fuel + 1, pos => do
    let (_, p₁) ← pConsume toks pos .LEFT_PAREN
      ("Expected " ++ q "(" ++ " after " ++ q "for" ++ ".")
    -- Both branches of the `if self.match(VAR)` are identical.
    let p₂ : Nat := (pMatch1 toks p₁ .VAR).2
    let (iterTok, p₃) ← pConsume toks p₂ .IDENTIFIER
      "Expected iterator variable name."
    let (_, p₄) ← pConsume toks p₃ .ASSIGN
      ("Expected " ++ q "=" ++ " after iterator variable.")
    let (start, p₅) ← expression toks fuel p₄
    let (_, p₆) ← pConsume toks p₅ .SEMICOLON
      ("Expected " ++ q ";" ++ " after loop initializer.")
    let (cond, p₇) ← expression toks fuel p₆
    let (_, p₈) ← pConsume toks p₇ .SEMICOLON
      ("Expected " ++ q ";" ++ " after loop condition.")
    let (increment, p₉) ← expression toks fuel p₈
    let (_, p₁₀) ← pConsume toks p₉ .RIGHT_PAREN
      ("Expected " ++ q ")" ++ " after for clauses.")
    let (body, p₁₁) ← statement toks fuel p₁₀
    let initializer : Stmt := .varDecl iterTok.lexeme "integer" (some start)
      ⟨.IDENTIFIER, iterTok.lexeme, none, 0, 0⟩
    let increment_stmt : Stmt := .exprStmt increment
    let body₂ : Stmt :=
      match body with
      | .block ss => .block (ss ++ [increment_stmt])
      | b => .block [b, increment_stmt]
    .ok (.block [initializer, .whileS cond body₂], p₁₁)
  termination_by structural f => f

/-- `Parser.return_statement` (called with `return` already matched):
the keyword token is `previous()`, the value is parsed unless a `}`
follows. -/
def return_statement (toks : List Token) : Nat → Nat → Except PErr (Stmt × Nat)
  | 0, _ => .error .fuelOut
  | fuel + 1, pos =>
    let tok := pPrevious toks pos
    if pCheck toks pos .RIGHT_BRACE then .ok (.returnS none tok, pos)
    else do
      let (v, p₁) ← expression toks fuel pos
      .ok (.returnS (some v) tok, p₁)

/-- `Parser.expression_statement`. -/
def expression_statement (toks : List Token) : Nat → Nat →
    Except PErr (Stmt × Nat)
  | 0, _ => .error .fuelOut
  | fuel + 1, pos => do
    let (e, p₁) ← expression toks fuel pos
    .ok (.exprStmt e, p₁)

/-- `Parser.block`: declarations until `}`, which is consumed. -/
def blockList (toks : List Token) : Nat → Nat → Except PErr (List Stmt × Nat)
  | 0, _ => .error .fuelOut
  | fuel + 1, pos => do
    let (stmts, p₁) ← declListLoop toks fuel pos
    let (_, p₂) ← pConsume toks p₁ .RIGHT_BRACE
      ("Expected " ++ q "\x7d" ++ " after block.")
    .ok (stmts, p₂)
  termination_by structural f => f

/-- `Parser.expression`. -/
def expression (toks : List Token) : Nat → Nat → Except PErr (Expr × Nat)
  | 0, _ => .error .fuelOut
  | fuel + 1, pos => assignment toks fuel pos
  termination_by structural f => f

/-- `Parser.assignment`: parse an equality; on `=`, recurse and rewrite
a `Variable` target to `Set(var, name, value)` and a `Get` target to
`Set(object, name, value)`; any other target raises. -/
def assignment (toks : List Token) : Nat → Nat → Except PErr (Expr × Nat)
  | 0, _ => .error .fuelOut
  | fuel + 1, pos => do
    let (expr, p₁) ← equality toks fuel pos
    match pMatch1 toks p₁ .ASSIGN with
    | (true, p₂) =>
      let equals := pPrevious toks p₂
      do
        let (value, p₃) ← assignment toks fuel p₂
        match expr with
        | .varE name tok => .ok (.setE (.varE name tok) name value equals, p₃)
        | .get obj name _ => .ok (.setE obj name value equals, p₃)
        | _ => .error (.err "Invalid assignment target." equals p₃)
    | (false, _) => .ok (expr, p₁)
  termination_by structural f => f

/-- `Parser.equality`. -/
def equality (toks : List Token) : Nat → Nat → Except PErr (Expr × Nat)
  | 0, _ => .error .fuelOut
  | fuel + 1, pos => do
    let (e, p₁) ← comparison toks fuel pos
    equalityLoop toks fuel e p₁
  termination_by structural f => f

/-- The `==` / `!=` left-fold loop of `equality`. -/
def equalityLoop (toks : List Token) : Nat → Expr → Nat → Except PErr (Expr × Nat)
  | 0, _, _ => .error .fuelOut
  | fuel + 1, expr, pos =>
    match pMatchList toks pos [.EQUALS, .NOT_EQUALS] with
    | (true, p₁) => do
      let op := pPrevious toks p₁
      let (r, p₂) ← comparison toks fuel p₁
      equalityLoop toks fuel (.binary expr op r) p₂
    | (false, _) => .ok (expr, pos)
  termination_by structural f => f

/-- `Parser.comparison`. -/
def comparison (toks : List Token) : Nat → Nat → Except PErr (Expr × Nat)
  | 0, _ => .error .fuelOut
  | fuel + 1, pos => do
    let (e, p₁) ← term toks fuel pos
    comparisonLoop toks fuel e p₁
  termination_by structural f => f

/-- The relational-operator left-fold loop of `comparison`. -/
def comparisonLoop (toks : List Token) : Nat → Expr → Nat →
    Except PErr (Expr × Nat)
  | 0, _, _ => .error .fuelOut
  | fuel + 1, expr, pos =>
    match pMatchList toks pos [.GREATER, .GREATER_EQUAL, .LESS, .LESS_EQUAL] with
    | (true, p₁) => do
      let op := pPrevious toks p₁
      let (r, p₂) ← term toks fuel p₁
      comparisonLoop toks fuel (.binary expr op r) p₂
    | (false, _) => .ok (expr, pos)
  termination_by structural f => f

/-- `Parser.term`. -/
def term (toks : List Token) : Nat → Nat → Except PErr (Expr × Nat)
  | 0, _ => .error .fuelOut
  | fuel + 1, pos => do
    let (e, p₁) ← factor toks fuel pos
    termLoop toks fuel e p₁
  termination_by structural f => f

/-- The `+` / `-` left-fold loop of `term`. -/
def termLoop (toks : List Token) : Nat → Expr → Nat → Except PErr (Expr × Nat)
  | 0, _, _ => .error .fuelOut
  | fuel + 1, expr, pos =>
    match pMatchList toks pos [.PLUS, .MINUS] with
    | (true, p₁) => do
      let op := pPrevious toks p₁
      let (r, p₂) ← factor toks fuel p₁
      termLoop toks fuel (.binary expr op r) p₂
    | (false, _) => .ok (expr, pos)
  termination_by structural f => f

/-- `Parser.factor`. -/
def factor (toks : List Token) : Nat → Nat → Except PErr (Expr × Nat)
  | 0, _ => .error .fuelOut
  | fuel + 1, pos => do
    let (e, p₁) ← unaryExpr toks fuel pos
    factorLoop toks fuel e p₁
  termination_by structural f => f

/-- The `*` / `/` / `%` left-fold loop of `factor`. -/
def factorLoop (toks : List Token) : Nat → Expr → Nat → Except PErr (Expr × Nat)
  | 0, _, _ => .error .fuelOut
  | fuel + 1, expr, pos =>
    match pMatchList toks pos [.MULTIPLY, .DIVIDE, .MODULO] with
    | (true, p₁) => do
      let op := pPrevious toks p₁
      let (r, p₂) ← unaryExpr toks fuel p₁
      factorLoop toks fuel (.binary expr op r) p₂
    | (false, _) => .ok (expr, pos)
  termination_by structural f => f

/-- `Parser.unary`. -/
def unaryExpr (toks : List Token) : Nat → Nat → Except PErr (Expr × Nat)
  | 0, _ => .error .fuelOut
  | fuel + 1, pos =>
    match pMatchList toks pos [.NOT, .MINUS] with
    | (true, p₁) => do
      let op := pPrevious toks p₁
      let (r, p₂) ← unaryExpr toks fuel p₁
      .ok (.unary op r, p₂)
    | (false, _) => callExpr toks fuel pos
  termination_by structural f => f

/-- `Parser.call`: a primary followed by any number of call, property
and index suffixes. -/
def callExpr (toks : List Token) : Nat → Nat → Except PErr (Expr × Nat)
  | 0, _ => .error .fuelOut
  | fuel + 1, pos => do
    let (e, p₁) ← primary toks fuel pos
    callLoop toks fuel e p₁
  termination_by structural f => f

/-- The suffix loop of `Parser.call`.  The index case stores
`str(index)` — the Python `repr` of the parsed index EXPRESSION — as
the `Get.name`, with `previous()` (the just-consumed `]`) as token. -/
def callLoop (toks : List Token) : Nat → Expr → Nat → Except PErr (Expr × Nat)
  | 0, _, _ => .error .fuelOut
  | fuel + 1, expr, pos =>
    match pMatch1 toks pos .LEFT_PAREN with
    | (true, p₁) => do
      let (c, p₂) ← finish_call toks fuel expr p₁
      callLoop toks fuel c p₂
    | (false, _) =>
      match pMatch1 toks pos .DOT with
      | (true, p₁) => do
        let (nameTok, p₂) ← pConsume toks p₁ .IDENTIFIER
          ("Expected property name after " ++ q "." ++ ".")
        callLoop toks fuel (.get expr nameTok.lexeme nameTok) p₂
      | (false, _) =>
        match pMatch1 toks pos .LEFT_BRACKET with
        | (true, p₁) => do
          let (index, p₂) ← expression toks fuel p₁
          let (_, p₃) ← pConsume toks p₂ .RIGHT_BRACKET
            ("Expected " ++ q "]" ++ " after array index.")
          callLoop toks fuel (.get expr (exprRepr index) (pPrevious toks p₃)) p₃
        | (false, _) => .ok (expr, pos)
  termination_by structural f => f

/-- `Parser.finish_call`. -/
def finish_call (toks : List Token) : Nat → Expr → Nat → Except PErr (Expr × Nat)
  | 0, _, _ => .error .fuelOut
  | fuel + 1, callee, pos => do
    let (args, p₁) ←
      if pCheck toks pos .RIGHT_PAREN then (.ok ([], pos) : Except PErr _)
      else argsLoop toks fuel pos
    let (paren, p₂) ← pConsume toks p₁ .RIGHT_PAREN
      ("Expected " ++ q ")" ++ " after arguments.")
    .ok (.call callee args paren, p₂)
  termination_by structural f => f

/-- The argument do-while loop of `finish_call` and the `new` case. -/
def argsLoop (toks : List Token) : Nat → Nat → Except PErr (List Expr × Nat)
  | 0, _ => .error .fuelOut
  | fuel + 1, pos => do
    let (a, p₁) ← expression toks fuel pos
    match pMatch1 toks p₁ .COMMA with
    | (true, p₂) => do
      let (rest, p₃) ← argsLoop toks fuel p₂
      .ok (a :: rest, p₃)
    | (false, _) => .ok ([a], p₁)
  termination_by structural f => f

/-- `Parser.primary`. -/
def primary (toks : List Token) : Nat → Nat → Except PErr (Expr × Nat)
  | 0, _ => .error .fuelOut
  | fuel + 1, pos =>
    match pMatchList toks pos [.INTEGER, .STRING, .BOOLEAN] with
    | (true, p₁) =>
      let prev := pPrevious toks p₁
      .ok (.lit (tokLitToLitVal prev.literal) prev, p₁)
    | (false, _) =>
      match pMatch1 toks pos .THIS with
      | (true, p₁) => .ok (.thisE (pPrevious toks p₁), p₁)
      | (false, _) =>
        match pMatch1 toks pos .SUPER with
        | (true, p₁) => do
          let tok := pPrevious toks p₁
          let (_, p₂) ← pConsume toks p₁ .DOT
            ("Expected " ++ q "." ++ " after " ++ q "super" ++ ".")
          let (mTok, p₃) ← pConsume toks p₂ .IDENTIFIER
            "Expected superclass method name."
          .ok (.superE mTok.lexeme tok, p₃)
        | (false, _) =>
          match pMatch1 toks pos .IDENTIFIER with
          | (true, p₁) =>
            .ok (.varE (pPrevious toks p₁).lexeme (pPrevious toks p₁), p₁)
          | (false, _) =>
            match pMatch1 toks pos .LEFT_PAREN with
            | (true, p₁) => do
              let (e, p₂) ← expression toks fuel p₁
              let (_, p₃) ← pConsume toks p₂ .RIGHT_PAREN
                ("Expected " ++ q ")" ++ " after expression.")
              .ok (e, p₃)
            | (false, _) =>
              match pMatch1 toks pos .LEFT_BRACKET with
              | (true, p₁) => do
                let (elements, p₂) ←
                  if pCheck toks p₁ .RIGHT_BRACKET then
                    (.ok ([], p₁) : Except PErr _)
                  else argsLoop toks fuel p₁
                let (_, p₃) ← pConsume toks p₂ .RIGHT_BRACKET
                  ("Expected " ++ q "]" ++ " after array elements.")
                .ok (.lit (.llist elements) (pPrevious toks p₃), p₃)
              | (false, _) =>
                match pMatch1 toks pos .NEW with
                | (true, p₁) => do
                  let (nameTok, p₂) ← pConsume toks p₁ .IDENTIFIER
                    ("Expected class name after " ++ q "new" ++ ".")
                  let (_, p₃) ← pConsume toks p₂ .LEFT_PAREN
                    ("Expected " ++ q "(" ++ " after class name.")
                  let (args, p₄) ←
                    if pCheck toks p₃ .RIGHT_PAREN then
                      (.ok ([], p₃) : Except PErr _)
                    else argsLoop toks fuel p₃
                  let (paren, p₅) ← pConsume toks p₄ .RIGHT_PAREN
                    ("Expected " ++ q ")" ++ " after arguments.")
                  .ok (.call (.varE nameTok.lexeme nameTok) args paren, p₅)
                | (false, _) =>
                  .error (.err "Expected expression." (pPeek toks pos) pos)
  termination_by structural f => f
end

/-- `Parser.parse`: declarations until end of input. -/
def parseProgram (toks : List Token) : Nat → Nat → Except PErr (List Stmt × Nat)
  | 0, _ => .error .fuelOut
  | fuel + 1, pos =>
    if pIsAtEnd toks pos then .ok ([], pos)
    else do
      let (st, p₁) ← declaration toks fuel pos
      let (rest, p₂) ← parseProgram toks fuel p₁
      .ok (st :: rest, p₂)

/-! ## `Lexer.number` (`core/lexer.py`)

`scan_token` enters `number()` after `advance()` has consumed the first
digit: `start` indexes that digit, `current = start + 1`, and `column`
has been incremented past it. -/

/-- `Lexer.peek`: current character or NUL at end of input. -/
def lexPeek (source : List Char) (cur : Nat) : Char :=
  if cur ≥ source.length then Char.ofNat 0 else source.getD cur (Char.ofNat 0)

/-- `Lexer.peek_next`. -/
def lexPeekNext (source : List Char) (cur : Nat) : Char :=
  if cur + 1 ≥ source.length then Char.ofNat 0
  else source.getD (cur + 1) (Char.ofNat 0)

/-- The `while self.peek().isdigit(): self.advance()` loop (each
`advance` steps `current` and `column`); bounded by the remaining
source length. -/
def scanDigits (source : List Char) : Nat → Nat → Nat → Nat × Nat
  | 0, cur, col => (cur, col)
  | fuel + 1, cur, col =>
    if (lexPeek source cur).isDigit then scanDigits source fuel (cur + 1) (col + 1)
    else (cur, col)

/-- `Lexer.number`: scan a digit run, extend over `.` followed by a
digit, then convert the WHOLE slice — decimal point included — with
Python `int()`, and `add_token(INTEGER, value)` (whose column is the
post-scan column minus the lexeme length).  `int` on a slice containing
`.` raises `ValueError`. -/
def lexNumber (source : List Char) (start cur line col : Nat) :
    Except Err (Token × Nat × Nat) :=
  let (c₁, col₁) := scanDigits source (source.length + 1) cur col
  let (c₂, col₂) :=
    if lexPeek source c₁ == '.' && (lexPeekNext source c₁).isDigit then
      scanDigits source (source.length + 1) (c₁ + 1) (col₁ + 1)
    else (c₁, col₁)
  let text := String.mk ((source.drop start).take (c₂ - start))
  match pyIntParse text with
  | some n =>
    .ok (⟨.INTEGER, text, some (.tint n), line, col₂ - text.length⟩, c₂, col₂)
  | none =>
    .error (.pyValueError
      ("invalid literal for int() with base 10: " ++ pyStrRepr text))

/-! ## Concrete fixtures used by the claim theorems and witnesses -/

/-- Division token (`/` at line 1, column 3). -/
def tDiv : Token := ⟨.DIVIDE, "/", none, 1, 3⟩

/-- Integer token `7`. -/
def t7 : Token := ⟨.INTEGER, "7", some (.tint 7), 1, 1⟩

/-- Integer token `2`. -/
def t2 : Token := ⟨.INTEGER, "2", some (.tint 2), 1, 5⟩

/-- Integer token `0` (divisor position). -/
def t0div : Token := ⟨.INTEGER, "0", some (.tint 0), 1, 5⟩

/-- Logical-not token. -/
def tNot : Token := ⟨.NOT, "!", none, 1, 1⟩

/-- Integer token `0`. -/
def t0 : Token := ⟨.INTEGER, "0", some (.tint 0), 1, 3⟩

/-- Token stream of `for (var i = 0; i < 2; i = i + 1) { }` as the
lexer delivers it. -/
def forToks : List Token := [
  ⟨.FOR, "for", none, 1, 1⟩, ⟨.LEFT_PAREN, "(", none, 1, 5⟩,
  ⟨.VAR, "var", none, 1, 6⟩, ⟨.IDENTIFIER, "i", none, 1, 10⟩,
  ⟨.ASSIGN, "=", none, 1, 12⟩, ⟨.INTEGER, "0", some (.tint 0), 1, 14⟩,
  ⟨.SEMICOLON, ";", none, 1, 15⟩, ⟨.IDENTIFIER, "i", none, 1, 17⟩,
  ⟨.LESS, "<", none, 1, 19⟩, ⟨.INTEGER, "2", some (.tint 2), 1, 21⟩,
  ⟨.SEMICOLON, ";", none, 1, 22⟩, ⟨.IDENTIFIER, "i", none, 1, 24⟩,
  ⟨.ASSIGN, "=", none, 1, 26⟩, ⟨.IDENTIFIER, "i", none, 1, 28⟩,
  ⟨.PLUS, "+", none, 1, 30⟩, ⟨.INTEGER, "1", some (.tint 1), 1, 32⟩,
  ⟨.RIGHT_PAREN, ")", none, 1, 33⟩, ⟨.LEFT_BRACE, "\x7b", none, 1, 35⟩,
  ⟨.RIGHT_BRACE, "\x7d", none, 1, 36⟩, ⟨.EOF, "", none, 1, 37⟩]

/-- Token stream of the for-in header `for (x in arr) { }`. -/
def forInToks : List Token := [
  ⟨.FOR, "for", none, 1, 1⟩, ⟨.LEFT_PAREN, "(", none, 1, 5⟩,
  ⟨.IDENTIFIER, "x", none, 1, 6⟩, ⟨.IN, "in", none, 1, 8⟩,
  ⟨.IDENTIFIER, "arr", none, 1, 11⟩, ⟨.RIGHT_PAREN, ")", none, 1, 14⟩,
  ⟨.LEFT_BRACE, "\x7b", none, 1, 16⟩, ⟨.RIGHT_BRACE, "\x7d", none, 1, 17⟩,
  ⟨.EOF, "", none, 1, 18⟩]

/-- Token stream of the index expression `a[0]`. -/
def aIdxToks : List Token := [
  ⟨.IDENTIFIER, "a", none, 1, 1⟩, ⟨.LEFT_BRACKET, "[", none, 1, 2⟩,
  ⟨.INTEGER, "0", some (.tint 0), 1, 3⟩, ⟨.RIGHT_BRACKET, "]", none, 1, 4⟩,
  ⟨.EOF, "", none, 1, 5⟩]

/-- The parsed index expression `0` of `a[0]`. -/
def idxExpr : Expr := .lit (.lint 0) ⟨.INTEGER, "0", some (.tint 0), 1, 3⟩

/-- State in which the global `a` holds the three-element array
`[10, 20, 30]` declared as `array<integer>`. -/
def stateA : Interp :=
  { envs := [⟨none, [("a", (some "array<integer>", .varr 0))], [], []⟩],
    objects := [], arrays := [⟨[.vint 10, .vint 20, .vint 30], "integer"⟩],
    output := [], locals := [] }

/-- The user-defined function `fun f() { return 42 }` as
`FunctionDeclaration` execution registers it (closure = globals,
`native_fn = None`). -/
def fnF : MusFunctionV :=
  ⟨"f", [], [.returnS (some (.lit (.lint 42) ⟨.INTEGER, "42", some (.tint 42), 1, 20⟩))
    ⟨.RETURN, "return", none, 1, 12⟩], some 0, none⟩

/-- State in which the global VARIABLE `f` holds that user-defined
function value, making it reachable by the `Call` evaluation path. -/
def stateF : Interp :=
  { envs := [⟨none, [("f", (none, .vfun fnF))], [], []⟩],
    objects := [], arrays := [], output := [], locals := [] }

/-- Two-environment chain: empty globals and a child binding `x = 5`. -/
def stateL : Interp :=
  { envs := [⟨none, [], [], []⟩, ⟨some 0, [("x", (some "integer", .vint 5))], [], []⟩],
    objects := [], arrays := [], output := [], locals := [] }

/-- A class `A` with a one-parameter `init` method (empty body) whose
closure is the global environment. -/
def cA : ClassV :=
  .mk "A" [] [("init", ⟨"init", [("v", "integer")], [], some 0, none⟩)] none (some 0)

/-- A minimal state with one (global) environment. -/
def stateEmpty : Interp :=
  { envs := [⟨none, [], [], []⟩], objects := [], arrays := [],
    output := [], locals := [] }

/-- Whether an evaluation produced an `int` result, used to state that
division never does. -/
def resultIsInt : Except Err (Value × Interp) → Bool
  | .ok (.vint _, _) => true
  | _ => false

/-! ## Claim theorems -/

/-- C1: the claim says a call whose callee evaluates to a user-defined
(non-native) function runs the body in a fresh environment parented to
its closure and returns the `return` value (or null).  The code instead
crashes: `hasattr(callee_val, "native_fn")` is true for EVERY
`MusFunction` (the dataclass default sets the attribute to `None`), so
the call invokes `None(args)` and raises
`TypeError: 'NoneType' object is not callable`.  Here the callee `f`
evaluates to the user-defined `fun f() { return 42 }` with
`native_fn = None`, yet calling it yields the `TypeError` instead of
`42`. -/
theorem mus_C1_user_function_call_crashes :
    evaluate 10 stateF 0 (.varE "f" ⟨.IDENTIFIER, "f", none, 2, 1⟩) =
      .ok (.vfun fnF, stateF) ∧
    fnF.nativeFn = none ∧
    evaluate 10 stateF 0 (.call (.varE "f" ⟨.IDENTIFIER, "f", none, 2, 1⟩) []
      ⟨.RIGHT_PAREN, ")", none, 2, 3⟩) =
      .error (.pyTypeError (sq ++ "NoneType" ++ sq ++ " object is not callable")) :=
  ⟨rfl, rfl, rfl⟩

/-- C2: the claim says a variable reference walks the scope chain from
the current environment and raises `NameError` when unbound.  The code's
`lookup_variable` never takes the resolved-distance branch (`resolve`
has no caller, `locals` stays empty) and falls back to
`self.globals.get_variable(name)`: evaluated in the child environment
of `stateL`, the locally bound `x = 5` reads as `None` — although the
nearest-enclosing lookup the claim describes (`get_variable` from the
current environment) would find `5` — and the entirely unbound `zzz`
also yields `None` instead of raising `NameError`. -/
theorem mus_C2_variable_lookup_ignores_scope_chain :
    evaluate 10 stateL 1 (.varE "x" ⟨.IDENTIFIER, "x", none, 3, 1⟩) =
      .ok (.vnone, stateL) ∧
    get_variable 10 stateL 1 "x" = .vint 5 ∧
    evaluate 10 stateL 1 (.varE "zzz" ⟨.IDENTIFIER, "zzz", none, 4, 1⟩) =
      .ok (.vnone, stateL) :=
  ⟨rfl, rfl, rfl⟩

/-- C3: the claim says `a[e]` returns the element for an in-range
integer index and raises `RuntimeError` otherwise.  The parser stores
`str(index)` — the Python `repr` of the index EXPRESSION node — as the
`Get` name, the evaluator's `int(name)` then raises `ValueError` on
that repr string, and the caught `ValueError` becomes `Unknown array
method: Literal(...)`.  So `a[0]` on `a = [10, 20, 30]` errors even
though element 0 exists (shown by `musArray_get`). -/
theorem mus_C3_indexing_always_errors :
    expression aIdxToks 30 0 =
      .ok (.get (.varE "a" ⟨.IDENTIFIER, "a", none, 1, 1⟩) (exprRepr idxExpr)
        ⟨.RIGHT_BRACKET, "]", none, 1, 4⟩, 4) ∧
    evaluate 10 stateA 0
      (.get (.varE "a" ⟨.IDENTIFIER, "a", none, 1, 1⟩) (exprRepr idxExpr)
        ⟨.RIGHT_BRACKET, "]", none, 1, 4⟩) =
      .error (.interpErr ("Unknown array method: " ++ exprRepr idxExpr)
        ⟨.RIGHT_BRACKET, "]", none, 1, 4⟩) ∧
    pyIntParse (exprRepr idxExpr) = none ∧
    musArray_get stateA 0 0 = .ok (.vint 10) :=
  ⟨rfl, rfl, rfl, rfl⟩

/-- C4: the claim says the parser looks ahead past the loop variable
and recognizes `for (name in iterable)` when the next token is `in`.
The code's `for_statement` consumes `=` unconditionally right after the
iterator identifier, so the for-in header raises
`ParserError("Expected '=' after iterator variable.")` at the `in`
token (at both the `for_statement` and the `statement` entry points). -/
theorem mus_C4_for_in_not_recognized :
    for_statement forInToks 30 1 =
      .error (.err ("Expected " ++ q "=" ++ " after iterator variable.")
        ⟨.IN, "in", none, 1, 8⟩ 3) ∧
    statement forInToks 31 0 =
      .error (.err ("Expected " ++ q "=" ++ " after iterator variable.")
        ⟨.IN, "in", none, 1, 8⟩ 3) :=
  ⟨rfl, rfl⟩

/-- C5: the claim says integer `/` yields the integer quotient.  The
code uses Python TRUE division, so `7 / 2` evaluates to the float
`3.5` — never an integer value — while the division-by-zero half of the
claim does hold (`7 / 0` raises the `Division by zero` error). -/
theorem mus_C5_division_produces_float :
    evaluate 10 initialInterp 0 (.binary (.lit (.lint 7) t7) tDiv (.lit (.lint 2) t2)) =
      .ok (.vfloat (7 / 2 : ℚ), initialInterp) ∧
    resultIsInt (evaluate 10 initialInterp 0
      (.binary (.lit (.lint 7) t7) tDiv (.lit (.lint 2) t2))) = false ∧
    evaluate 10 initialInterp 0 (.binary (.lit (.lint 7) t7) tDiv (.lit (.lint 0) t0div)) =
      .error (.interpErr "Division by zero" tDiv) :=
  ⟨rfl, rfl, rfl⟩

/-- C6: the claim says `var x => T = e` validates the initializer
against the declared type per the §7 table and raises `TypeError` on
mismatch.  The `VarDeclaration` arm performs NO validation: declaring
`var x => integer = "hello"` succeeds and binds the string. -/
theorem mus_C6_var_decl_skips_type_validation :
    execute 10 initialInterp 0 (.varDecl "x" "integer"
      (some (.lit (.lstr "hello") ⟨.STRING, "\"hello\"", some (.tstr "hello"), 1, 20⟩))
      ⟨.IDENTIFIER, "x", none, 1, 5⟩) =
    .ok (none,
      { envs := [⟨none, [("x", (some "integer", .vstr "hello"))],
          [("out", ⟨"out", [("value", "any")], [], none, some .outFn⟩),
           ("length", ⟨"length", [("array", "array")], [], none, some .lengthFn⟩)],
          []⟩],
        objects := [], arrays := [], output := [], locals := [] }) := rfl

/-- C7: the claim says a literal like `3.14` lexes to a single INTEGER
token with the truncated payload `3`.  `Lexer.number` scans the
fractional part but then calls `int("3.14")`, which raises
`ValueError`, aborting the lexer instead of producing a token. -/
theorem mus_C7_fractional_literal_crashes_lexer :
    lexNumber "3.14".data 0 1 1 2 =
      .error (.pyValueError
        ("invalid literal for int() with base 10: " ++ sq ++ "3.14" ++ sq)) :=
  rfl

/-- C9: double negation computes truthiness.  Whenever an expression
evaluates to a value `v`, evaluating `!!` of that expression (two
nested `Unary` NOT nodes) yields exactly the boolean
`is_truthy v` with the same final state; and truthiness is false
precisely on `null` and `false` — the integer 0, the empty string and
the empty array all count as truthy. -/
theorem mus_C9_double_negation_is_truthiness
    (notTok : Token) (hn : notTok.type = .NOT)
    {fuel env : Nat} {s s' : Interp} {e : Expr} {v : Value}
    (h : evaluate fuel s env e = .ok (v, s')) :
    evaluate (fuel + 2) s env (.unary notTok (.unary notTok e)) =
      .ok (.vbool (is_truthy v), s') ∧
    (∀ w : Value, is_truthy w = false ↔ (w = .vnone ∨ w = .vbool false)) := by
  constructor
  · show evaluate ((fuel + 1) + 1) s env (.unary notTok (.unary notTok e)) = _
    simp only [evaluate, hn]
    rw [h]
    cases v <;> simp [is_truthy]
  · intro w
    cases w <;> simp [is_truthy]

/-- C9 witness: `!!0` on the integer literal 0 evaluates to `true`
(zero is truthy), instantiating the theorem at fuel 1 in the initial
state. -/
theorem mus_C9_witness :
    evaluate (1 + 2) initialInterp 0 (.unary tNot (.unary tNot (.lit (.lint 0) t0))) =
      .ok (.vbool (is_truthy (.vint 0)), initialInterp) ∧
    (∀ w : Value, is_truthy w = false ↔ (w = .vnone ∨ w = .vbool false)) :=
  @mus_C9_double_negation_is_truthiness tNot rfl 1 0 initialInterp initialInterp
    (.lit (.lint 0) t0) (.vint 0) rfl

/-- C8: every successful `for_statement` parse yields exactly the
desugared AST `Block([VarDecl(iter, "integer", init, synthesized
token), While(cond, body-block ending in the increment statement)])`
(a non-block body is wrapped into a block before the increment is
appended, so the while body is always a block whose final statement is
the increment); consequently evaluating the parsed loop is evaluating
that desugared block-and-while form. -/
theorem mus_C8_for_desugars_to_block_while
    {toks : List Token} {fuel pos : Nat} {stmt : Stmt} {pos' : Nat}
    (h : for_statement toks fuel pos = .ok (stmt, pos')) :
    ∃ iter start cond incr bodyStmts,
      stmt = .block [
        .varDecl iter "integer" (some start) ⟨.IDENTIFIER, iter, none, 0, 0⟩,
        .whileS cond (.block (bodyStmts ++ [.exprStmt incr]))] ∧
      (∀ f s env, execute f s env stmt = execute f s env (.block [
        .varDecl iter "integer" (some start) ⟨.IDENTIFIER, iter, none, 0, 0⟩,
        .whileS cond (.block (bodyStmts ++ [.exprStmt incr]))])) := by
  cases fuel with
  | zero => exact absurd h (by simp [for_statement])
  | succ f =>
    simp only [for_statement, bind, Except.bind] at h
    repeat' split at h
    all_goals try exact Except.noConfusion h
    all_goals (injection h with h₂; injection h₂ with hstmt hpos; subst hstmt)
    · exact ⟨_, _, _, _, _, rfl, fun _ _ _ => rfl⟩
    · exact ⟨_, _, _, _, [_], rfl, fun _ _ _ => rfl⟩

/-- C8 witness: the concrete parse of
`for (var i = 0; i < 2; i = i + 1) { }` has the desugared
block-and-while shape. -/
theorem mus_C8_witness :
    ∃ iter start cond incr bodyStmts,
      (Stmt.block [
        .varDecl "i" "integer"
          (some (.lit (.lint 0) ⟨.INTEGER, "0", some (.tint 0), 1, 14⟩))
          ⟨.IDENTIFIER, "i", none, 0, 0⟩,
        .whileS
          (.binary (.varE "i" ⟨.IDENTIFIER, "i", none, 1, 17⟩)
            ⟨.LESS, "<", none, 1, 19⟩
            (.lit (.lint 2) ⟨.INTEGER, "2", some (.tint 2), 1, 21⟩))
          (.block [.exprStmt (.setE (.varE "i" ⟨.IDENTIFIER, "i", none, 1, 24⟩) "i"
            (.binary (.varE "i" ⟨.IDENTIFIER, "i", none, 1, 28⟩)
              ⟨.PLUS, "+", none, 1, 30⟩
              (.lit (.lint 1) ⟨.INTEGER, "1", some (.tint 1), 1, 32⟩))
            ⟨.ASSIGN, "=", none, 1, 26⟩)])]) =
      .block [
        .varDecl iter "integer" (some start) ⟨.IDENTIFIER, iter, none, 0, 0⟩,
        .whileS cond (.block (bodyStmts ++ [.exprStmt incr]))] ∧
      (∀ f s env, execute f s env (Stmt.block [
        .varDecl "i" "integer"
          (some (.lit (.lint 0) ⟨.INTEGER, "0", some (.tint 0), 1, 14⟩))
          ⟨.IDENTIFIER, "i", none, 0, 0⟩,
        .whileS
          (.binary (.varE "i" ⟨.IDENTIFIER, "i", none, 1, 17⟩)
            ⟨.LESS, "<", none, 1, 19⟩
            (.lit (.lint 2) ⟨.INTEGER, "2", some (.tint 2), 1, 21⟩))
          (.block [.exprStmt (.setE (.varE "i" ⟨.IDENTIFIER, "i", none, 1, 24⟩) "i"
            (.binary (.varE "i" ⟨.IDENTIFIER, "i", none, 1, 28⟩)
              ⟨.PLUS, "+", none, 1, 30⟩
              (.lit (.lint 1) ⟨.INTEGER, "1", some (.tint 1), 1, 32⟩))
            ⟨.ASSIGN, "=", none, 1, 26⟩)])]) =
        execute f s env (.block [
          .varDecl iter "integer" (some start) ⟨.IDENTIFIER, iter, none, 0, 0⟩,
          .whileS cond (.block (bodyStmts ++ [.exprStmt incr]))])) :=
  @mus_C8_for_desugars_to_block_while forToks 30 1 _ 19 rfl

/-- Reading a key just written into a dict returns the written value. -/
theorem dictGet_dictSet_self {α : Type} (d : List (String × α)) (k : String) (v : α) :
    dictGet (dictSet d k v) k = some v := by
  induction d with
  | nil => simp [dictSet, dictGet]
  | cons hd tl ih =>
    obtain ⟨k₀, v₀⟩ := hd
    by_cases hk : k₀ == k
    · simp [dictSet, dictGet, hk]
    · simp [dictSet, dictGet, hk, ih]

/-- Reading just past an appended prefix yields the first appended cell. -/
theorem listNthD_append_zero {α : Type} (d : α) (l : List α) (a : α) (t : List α) :
    listNthD d (l ++ a :: t) l.length = a := by
  induction l with
  | nil => rfl
  | cons x xs ih => simpa [listNthD] using ih

/-- Reading one past an appended prefix yields the second appended cell. -/
theorem listNthD_append_one {α : Type} (d : α) (l : List α) (a b : α) (t : List α) :
    listNthD d (l ++ a :: b :: t) (l.length + 1) = b := by
  induction l with
  | nil => rfl
  | cons x xs ih => simpa [listNthD, Nat.succ_add] using ih

/-- `get?` just past an appended prefix yields the first appended cell. -/
theorem listNthQ_append_zero {α : Type} (l : List α) (a : α) (t : List α) :
    listNthQ (l ++ a :: t) l.length = some a := by
  induction l with
  | nil => rfl
  | cons x xs ih => simpa [listNthQ] using ih

/-- Writing just past an appended prefix replaces the first appended cell. -/
theorem listSetNth_append_zero {α : Type} (l : List α) (a c : α) (t : List α) :
    listSetNth (l ++ a :: t) l.length c = l ++ c :: t := by
  induction l with
  | nil => rfl
  | cons x xs ih => simpa [listSetNth] using ih

/-- Writing one past an appended prefix replaces the second appended cell. -/
theorem listSetNth_append_one {α : Type} (l : List α) (a b c : α) (t : List α) :
    listSetNth (l ++ a :: b :: t) (l.length + 1) c = l ++ a :: c :: t := by
  induction l with
  | nil => rfl
  | cons x xs ih => simpa [listSetNth, Nat.succ_add] using ih

/-- C10: for every starting state and every class whose method table
(own or inherited) contains `init`, the instance that
`create_instance` returns (the freshly allocated object) has `"init"`
as a key of its field dict, mapped to a bound copy of that
initializer: same name/params/body, `native_fn = None`, and a fresh
closure environment (arena index `s.envs.length + 1`, allocated by
`bind` after the instance environment) that binds `this` to the new
instance.  Consequently `get_field` on `"init"` resolves to this
stored field — field lookup precedes method lookup — returning it with
the state unchanged instead of binding a fresh copy. -/
theorem mus_C10_init_stored_as_bound_field
    (s : Interp) (c : ClassV) (m : MusFunctionV)
    (h : get_method c "init" = some m) :
    (create_instance s c).2 = s.objects.length ∧
    dictGet ((create_instance s c).1.objects.getD (create_instance s c).2
      emptyObj).fields "init" =
      some (.vfun ⟨m.name, m.params, m.body, some (s.envs.length + 1), none⟩) ∧
    dictGet (getEnv (create_instance s c).1 (s.envs.length + 1)).vars "this" =
      some (some c.name, .vobj (create_instance s c).2) ∧
    (∀ fuel, get_field (fuel + 1) (create_instance s c).1 (create_instance s c).2
      "init" =
      .ok (.vfun ⟨m.name, m.params, m.body, some (s.envs.length + 1), none⟩,
        (create_instance s c).1)) := by
  obtain ⟨name, fields, methods, parent, cenv⟩ := c
  refine ⟨?_, ?_, ?_, ?_⟩ <;>
    cases parent <;>
      simp [create_instance, method_bind, newEnv, define_variable, setEnv, getEnv,
        h, emptyObj, listNthD_append_zero, listNthD_append_one,
        listNthQ_append_zero, listSetNth_append_zero, listSetNth_append_one,
        dictGet_dictSet_self, dictSet, dictGet, get_field, ClassV.name,
        ClassV.fields, ClassV.methods, ClassV.parent, ClassV.environment,
        List.length_append]

/-- C10 witness: instantiated for class `cA` (whose own method table
holds a one-parameter `init`) created from the one-environment state
`stateEmpty`. -/
theorem mus_C10_witness :
    (create_instance stateEmpty cA).2 = stateEmpty.objects.length ∧
    dictGet ((create_instance stateEmpty cA).1.objects.getD
      (create_instance stateEmpty cA).2 emptyObj).fields "init" =
      some (.vfun ⟨"init", [("v", "integer")], [],
        some (stateEmpty.envs.length + 1), none⟩) ∧
    dictGet (getEnv (create_instance stateEmpty cA).1
      (stateEmpty.envs.length + 1)).vars "this" =
      some (some cA.name, .vobj (create_instance stateEmpty cA).2) ∧
    (∀ fuel, get_field (fuel + 1) (create_instance stateEmpty cA).1
      (create_instance stateEmpty cA).2 "init" =
      .ok (.vfun ⟨"init", [("v", "integer")], [],
        some (stateEmpty.envs.length + 1), none⟩,
        (create_instance stateEmpty cA).1)) :=
  mus_C10_init_stored_as_bound_field stateEmpty cA
    ⟨"init", [("v", "integer")], [], some 0, none⟩ rfl

end Mus
